import Mathlib

/-!
# Remote-build orchestration pipeline (`uploadAndBuildFromTemplate`)

A shallow embedding of `src/p4/github-uploader.js`.

* JavaScript values that the function reads from its options and from the
  parsed response bodies are values of `JVal`; numbers are integers.
* `fetch` is an oracle (`Sim`): one simulated outcome per program point that
  calls `fetch`, the two polling requests being indexed by the attempt number.
* The function runs in the effect monad `Eff`, which records every request,
  every `progress(msg)` call, every `console.warn` and every delay in a trace
  and carries the thrown value when the function rejects.
-/

namespace Packager

/-! ## JavaScript values -/

/-- JavaScript values as far as the pipeline inspects them. -/
inductive JVal where
  | undefined : JVal
  | null : JVal
  | bool (b : Bool) : JVal
  | num (n : Int) : JVal
  | str (s : String) : JVal
  | arr (xs : List JVal) : JVal
  | obj (kv : List (String × JVal)) : JVal

namespace JVal

/-- ToBoolean: the value counts as true in `if`, `!`, `&&`, `||`. -/
def truthy : JVal → Bool
  | undefined => false
  | null => false
  | bool b => b
  | num n => n != 0
  | str s => s != ""
  | arr _ => true
  | obj _ => true

/-- The value is `null` or `undefined`: reading a property of it throws. -/
def nullish : JVal → Bool
  | undefined => true
  | null => true
  | _ => false

/-- Strict equality `v === 'lit'` against a string literal. -/
def isStr (v : JVal) (lit : String) : Bool :=
  match v with
  | str s => s == lit
  | _ => false

/-- Strict equality `v === 0`. -/
def isZero : JVal → Bool
  | num n => n == 0
  | _ => false

/-- The `a || b` operator. -/
def orElse (a b : JVal) : JVal := if a.truthy then a else b

/-- The `a && b` operator. -/
def andThen (a b : JVal) : JVal := if a.truthy then b else a

/-- Number of UTF-16 code units of a string (its `length`). -/
def utf16Len (s : String) : Nat :=
  (s.toList.map (fun c => if c.toNat < 65536 then 1 else 2)).sum

mutual
/-- ToString, as applied by a template literal `${v}`. -/
def toStr : JVal → String
  | undefined => "undefined"
  | null => "null"
  | bool b => if b then "true" else "false"
  | num n => if n < 0 then "-" ++ toString n.natAbs else toString n.natAbs
  | str s => s
  | arr xs => joinStr xs
  | obj _ => "[object Object]"
/-- The elements of an array joined by commas (`Array.prototype.join`):
`null` and `undefined` elements contribute the empty string. -/
def joinStr : List JVal → String
  | [] => ""
  | [x] => if x.nullish then "" else toStr x
  | x :: y :: rest => (if x.nullish then "" else toStr x) ++ "," ++ joinStr (y :: rest)
end

/-- Property read `v.key` on a value that is not `null` or `undefined`:
own JSON properties of an object, `length` of arrays and strings, and
`undefined` otherwise. -/
def field (v : JVal) (key : String) : JVal :=
  match v with
  | obj kv => (kv.lookup key).getD undefined
  | arr xs => if key == "length" then num xs.length else undefined
  | str s => if key == "length" then num (utf16Len s) else undefined
  | _ => undefined

/-- Element read `v[0]` on a value that is not `null` or `undefined`. -/
def first (v : JVal) : JVal :=
  match v with
  | arr xs => xs.headD undefined
  | obj kv => (kv.lookup "0").getD undefined
  | str s => match s.toList with
    | [] => undefined
    | c :: _ => str (String.singleton c)
  | _ => undefined

end JVal

/-! ## Platform functions -/

/-- One element of a `Uint8Array`. -/
abbrev Byte := Fin 256

/-- The base-64 alphabet of `btoa`. -/
def b64alphabet : List Char :=
  "ABCDEFGHIJKLMNOPQRSTUVWXYZabcdefghijklmnopqrstuvwxyz0123456789+/".toList

/-- The character of a 6-bit group. -/
def b64char (n : Nat) : Char := b64alphabet.getD n 'A'

/-- The 6-bit group of a character of the alphabet. -/
def b64index (c : Char) : Option Nat :=
  let i := b64alphabet.indexOf c
  if i < 64 then some i else none

/-- Base-64 encoding of a sequence of character codes, three codes to four
characters, the last group padded with `=`. -/
def b64encode : List Nat → List Char
  | a :: b :: c :: rest =>
    b64char (a / 4) :: b64char (a % 4 * 16 + b / 16) :: b64char (b % 16 * 4 + c / 64)
      :: b64char (c % 64) :: b64encode rest
  | [a, b] => [b64char (a / 4), b64char (a % 4 * 16 + b / 16), b64char (b % 16 * 4), '=']
  | [a] => [b64char (a / 4), b64char (a % 4 * 16), '=', '=']
  | [] => []

/-- Base-64 decoding of padded input, four characters to three codes; `none`
on input that is not padded base-64 text. -/
def b64decode : List Char → Option (List Nat)
  | [] => some []
  | c0 :: c1 :: c2 :: c3 :: rest =>
    if c3 = '=' then
      if rest ≠ [] then none
      else if c2 = '=' then
        (b64index c0).bind fun s0 => (b64index c1).bind fun s1 =>
          some [s0 * 4 + s1 / 16]
      else
        (b64index c0).bind fun s0 => (b64index c1).bind fun s1 => (b64index c2).bind fun s2 =>
          some [s0 * 4 + s1 / 16, s1 % 16 * 16 + s2 / 4]
    else
      (b64index c0).bind fun s0 => (b64index c1).bind fun s1 => (b64index c2).bind fun s2 =>
      (b64index c3).bind fun s3 => (b64decode rest).bind fun tail =>
        some ((s0 * 4 + s1 / 16) :: (s1 % 16 * 16 + s2 / 4) :: (s2 % 4 * 64 + s3) :: tail)
  | _ => none

/-- The global `btoa`: base-64 text of a binary string, `none` (an
`InvalidCharacterError`) when a character code exceeds 255. -/
def btoa (s : String) : Option String :=
  if s.toList.all (fun c => c.toNat < 256) then
    some (String.mk (b64encode (s.toList.map Char.toNat)))
  else none

/-- The global `atob` on padded base-64 text: the binary string it encodes. -/
def atob (s : String) : Option String :=
  (b64decode s.toList).map fun codes => String.mk (codes.map Char.ofNat)

/-- `String.fromCharCode.apply(null, codes)`: the string of the characters
with the given codes. -/
def fromCharCode (codes : List Byte) : String :=
  String.mk (codes.map fun b => Char.ofNat b.val)

/-- `bytes.subarray(i, j)` for `0 ≤ i ≤ j`: the elements from index `i` up to,
not including, index `j`, clamped to the array. -/
def subarray (bytes : List Byte) (i j : Nat) : List Byte :=
  (bytes.drop i).take (j - i)

/-- `s.slice(i, j)` for `0 ≤ i ≤ j` on a string of BMP characters. -/
def slice (s : String) (i j : Nat) : String :=
  String.mk ((s.toList.drop i).take (j - i))

/-- Upper-case hexadecimal digit. -/
def hexDigit (n : Nat) : Char := "0123456789ABCDEF".toList.getD n '0'

/-- Characters that `encodeURIComponent` leaves as they are. -/
def uriUnreserved (c : Char) : Bool :=
  c.isAlphanum || "-_.!~*()".toList.contains c || c.toNat == 39

/-- The global `encodeURIComponent`: every other character is replaced by the
percent-escapes of its UTF-8 bytes. -/
def encodeURIComponent (s : String) : String :=
  String.mk (s.toList.flatMap fun c =>
    if uriUnreserved c then [c]
    else (String.utf8EncodeChar c).flatMap fun b =>
      ['%', hexDigit (b.toNat / 16), hexDigit (b.toNat % 16)])

/-! ## Effects -/

/-- A value thrown by the pipeline (the rejection of the returned promise). -/
inductive Thrown where
  /-- An `Error` created by `throw new Error(message)`. -/
  | error (message : String)
  /-- A `TypeError` raised by the engine. -/
  | typeError (message : String)
  /-- A rejection of `fetch(...)` or of `response.json()`. -/
  | rejected (reason : String)
  deriving DecidableEq

/-- The `message` of a thrown value. -/
def Thrown.message : Thrown → String
  | .error m => m
  | .typeError m => m
  | .rejected m => m

/-- The nine places of the function that call `fetch`. -/
inductive Site where
  | accountLookup
  | generate
  | workflowInstall
  | upload
  | dispatch
  | runsList
  | runDetail
  | latestRelease
  | deleteRepo
  deriving DecidableEq

/-- An outbound request: the call site and the arguments of one `fetch` call.
`body` is the value handed to `JSON.stringify`. -/
structure Request where
  site : Site
  method : String := "GET"
  url : String
  headers : List (String × String)
  body : Option JVal := none

/-- What the pipeline does that an observer can see. -/
inductive Event where
  | request (r : Request)
  | progress (msg : String)
  | warn (label : String) (detail : JVal)
  | sleep (ms : Nat)

/-- A response as the pipeline reads it: `ok`, `status`, the result of
`text()` and the result of `json()` (an error when the body is not JSON). -/
structure Response where
  ok : Bool
  status : Nat
  text : String := ""
  json : Except String JVal := .ok .undefined

/-- Outcome of one `fetch` call: the promise rejects or resolves. -/
inductive Fetch where
  | fails (reason : String)
  | responds (r : Response)

/-- The simulated server: the outcome of the `fetch` call at each program
point. `runs k` and `detail k` answer the two requests of polling attempt `k`
(counted from 1). -/
structure Sim where
  user : Fetch
  generate : Fetch
  install : Fetch
  upload : Fetch
  dispatch : Fetch
  runs : Nat → Fetch
  detail : Nat → Fetch
  release : Fetch
  delete : Fetch

/-- A computation of the pipeline: its completion (a value or a thrown value)
and the events it produced, in order. -/
def Eff (α : Type) : Type := Except Thrown α × List Event

namespace Eff

/-- How the computation completes: with a value, or with a thrown value. -/
def outcome {α : Type} (m : Eff α) : Except Thrown α := m.1

/-- The events of the computation, in order. -/
def trace {α : Type} (m : Eff α) : List Event := m.2

/-- Sequencing: a thrown value skips the rest. -/
def bind {α β : Type} (m : Eff α) (f : α → Eff β) : Eff β :=
  match m with
  | (.ok a, t) => ((f a).1, t ++ (f a).2)
  | (.error e, t) => (.error e, t)

instance : Monad Eff where
  pure a := (.ok a, [])
  bind := Eff.bind

/-- Record one event. -/
def emit (e : Event) : Eff Unit := (.ok (), [e])

/-- The `throw` statement. -/
def throw {α : Type} (e : Thrown) : Eff α := (.error e, [])

/-- The `try { m } catch (e) { h e }` statement. -/
def tryCatch {α : Type} (m : Eff α) (h : Thrown → Eff α) : Eff α :=
  match m with
  | (.ok a, t) => (.ok a, t)
  | (.error e, t) => ((h e).1, t ++ (h e).2)

end Eff

/-- The inner function `progress(msg)`. -/
def progress (msg : String) : Eff Unit := Eff.emit (.progress msg)

/-- The call `console.warn(label, detail)`. -/
def consoleWarn (label : String) (detail : JVal) : Eff Unit := Eff.emit (.warn label detail)

/-- The call `await fetch(url, init)` answered by the simulated outcome. -/
def fetch (out : Fetch) (req : Request) : Eff Response :=
  match out with
  | .fails reason => (.error (.rejected reason), [.request req])
  | .responds r => (.ok r, [.request req])

/-- The call `await resp.json()`. -/
def Response.parse (r : Response) : Eff JVal :=
  match r.json with
  | .ok v => pure v
  | .error reason => Eff.throw (.rejected reason)

/-- Property read `v.key`: a `TypeError` on `null` and `undefined`. -/
def prop (v : JVal) (key : String) : Eff JVal :=
  if v.nullish then
    Eff.throw (.typeError ("Cannot read properties of " ++ v.toStr ++ " (reading '" ++ key ++ "')"))
  else pure (v.field key)

/-- Element read `v[0]`: a `TypeError` on `null` and `undefined`. -/
def index0 (v : JVal) : Eff JVal :=
  if v.nullish then
    Eff.throw (.typeError ("Cannot read properties of " ++ v.toStr ++ " (reading '0')"))
  else pure v.first

/-! ## The pipeline -/

/-- The `blob` option: a `Blob` with its bytes, or any other value. -/
inductive BlobArg where
  | value (v : JVal)
  | blob (bytes : List Byte)

/-- ToBoolean of the `blob` option: a `Blob` is an object. -/
def BlobArg.truthy : BlobArg → Bool
  | .value v => v.truthy
  | .blob _ => true

/-- The options object `opts`; a property that is absent is `undefined`
(`none` for the two numeric options). -/
structure Options where
  blob : BlobArg := .value .undefined
  name : JVal := .undefined
  githubUser : JVal := .undefined
  githubToken : JVal := .undefined
  templateOwner : JVal := .undefined
  templateRepo : JVal := .undefined
  workflowId : JVal := .undefined
  autoDelete : JVal := .undefined
  pollIntervalMs : Option Nat := none
  pollMaxAttempts : Option Nat := none

/-- Default of a destructured property: it applies to `undefined` only. -/
def JVal.withDefault (v d : JVal) : JVal :=
  match v with
  | .undefined => d
  | _ => v

/-- The value the pipeline returns. -/
structure Result where
  createdRepoUrl : JVal
  releaseUrl : JVal
  assetName : JVal
  assetDownloadUrl : JVal

/-- The constant `apiBase`. -/
def apiBase : String := "https://api.github.com"

/-- The headers of the requests without a body. -/
def authHeaders (githubToken : JVal) : List (String × String) :=
  [("Authorization", "token " ++ githubToken.toStr), ("Accept", "application/vnd.github+json")]

/-- The headers of the requests with a JSON body. -/
def jsonHeaders (githubToken : JVal) : List (String × String) :=
  [("Authorization", "token " ++ githubToken.toStr), ("Content-Type", "application/json"),
   ("Accept", "application/vnd.github+json")]

/-- The constant `workflowContent`: the build workflow written to the new
repository. -/
def workflowContent : String :=
  "name: Cordova Build\n" ++
  "\n" ++
  "on:\n" ++
  "  push:\n" ++
  "    branches:\n" ++
  "      - main\n" ++
  "  pull_request:\n" ++
  "    branches:\n" ++
  "      - main\n" ++
  "\n" ++
  "permissions:\n" ++
  "  # required to modify releases\n" ++
  "  contents: write\n" ++
  "\n" ++
  "jobs:\n" ++
  "  build:\n" ++
  "    runs-on: ubuntu-latest\n" ++
  "\n" ++
  "    steps:\n" ++
  "      # Check out the repository code\n" ++
  "      - name: Checkout code\n" ++
  "        uses: actions/checkout@v4\n" ++
  "\n" ++
  "      # Set up Node.js\n" ++
  "      - name: Set up Node.js\n" ++
  "        uses: actions/setup-node@v4\n" ++
  "        with:\n" ++
  "          node-version: '20'\n" ++
  "\n" ++
  "      # Set up Java 17\n" ++
  "      - name: Set up JDK 17\n" ++
  "        uses: actions/setup-java@v4\n" ++
  "        with:\n" ++
  "          java-version: '17'\n" ++
  "          distribution: 'adopt'\n" ++
  "\n" ++
  "      # Set up Android SDK and Build Tools\n" ++
  "      - name: Set up Android SDK\n" ++
  "        uses: android-actions/setup-android@v3\n" ++
  "        with:\n" ++
  "          cmdline-tools-version: 'latest'\n" ++
  "\n" ++
  "      # Install Android Build Tools\n" ++
  "      - name: Install Android Build Tools\n" ++
  "        run: |\n" ++
  "          sdkmanager \"build-tools;30.0.3\" \"platform-tools\" \"platforms;android-33\"\n" ++
  "        env:\n" ++
  "          ANDROID_HOME: $\x7b\x7b env.ANDROID_HOME \x7d\x7d\n" ++
  "          ANDROID_SDK_ROOT: $\x7b\x7b env.ANDROID_HOME \x7d\x7d\n" ++
  "\n" ++
  "      # Set up Gradle\n" ++
  "      - name: Set up Gradle\n" ++
  "        uses: gradle/actions/setup-gradle@v4\n" ++
  "        with:\n" ++
  "          gradle-version: '7.6.5' # Specify a stable Gradle version compatible with Android builds\n" ++
  "\n" ++
  "      # Install Cordova globally\n" ++
  "      - name: Install Cordova\n" ++
  "        run: npm install -g cordova\n" ++
  "\n" ++
  "      # Find and unzip the project's zip file\n" ++
  "      - name: Unzip project\n" ++
  "        run: |\n" ++
  "          ZIP_FILE=$(find . -maxdepth 1 -name \"*.zip\" -type f)\n" ++
  "          if [ -z \"$ZIP_FILE\" ]; then\n" ++
  "            echo \"No zip file found\"\n" ++
  "            exit 1\n" ++
  "          fi\n" ++
  "          unzip \"$ZIP_FILE\" -d project\n" ++
  "          rm \"$ZIP_FILE\"\n" ++
  "\n" ++
  "      # Navigate to unzipped project directory and run npm install\n" ++
  "      - name: Install dependencies\n" ++
  "        run: |\n" ++
  "          cd project\n" ++
  "          npm install\n" ++
  "\n" ++
  "      # Run npm build\n" ++
  "      - name: Build project\n" ++
  "        run: |\n" ++
  "          cd project\n" ++
  "          npm run build\n" ++
  "        env:\n" ++
  "          ANDROID_HOME: $\x7b\x7b env.ANDROID_HOME \x7d\x7d\n" ++
  "          ANDROID_SDK_ROOT: $\x7b\x7b env.ANDROID_HOME \x7d\x7d\n" ++
  "\n" ++
  "      - name: Upload artifacts to tag\n" ++
  "        uses: xresloader/upload-to-github-release@2bcae85344d41e21f7fc4c47fa2ed68223afdb49\n" ++
  "        with:\n" ++
  "          file: ./project/platforms/android/app/build/outputs/apk/debug/app-debug.apk\n" ++
  "          draft: false\n" ++
  "          tag_name: \"deep-sea-build\""

/-- The constant `chunkSize`. -/
def chunkSize : Nat := 0x8000

/-- The loop `for (let i = 0; i < bytes.length; i += chunkSize) binary += ...`
from the state `(i, binary)`. -/
def chunkLoop (bytes : List Byte) (i : Nat) (binary : String) : String :=
  if i < bytes.length then
    chunkLoop bytes (i + chunkSize)
      (binary ++ fromCharCode (subarray bytes i (i + chunkSize)))
  else binary
termination_by bytes.length - i
decreasing_by simp only [chunkSize]; omega

/-- The binary string `binary` built from the bytes of the blob. -/
def binaryString (bytes : List Byte) : String := chunkLoop bytes 0 ""

/-- The random suffix `rand`, from `rendered = Math.random().toString(36)`. -/
def randSuffix (rendered : String) : String := slice rendered 2 8

/-- The name `repoName` of the temporary repository. -/
def repoNameOf (rendered : String) : String := "packager-temp-" ++ randSuffix rendered

/-- What the later stages use of the values computed in lines 2-74. -/
structure Ctx where
  blob : BlobArg
  name : JVal
  githubUser : JVal
  workflowId : JVal
  autoDelete : JVal
  pollIntervalMs : Nat
  pollMaxAttempts : Nat
  repoName : String
  createdRepoUrl : JVal

/-- Lines 2-74: the options with their defaults, the two precondition checks,
the account lookup and the generation of the repository from the template. -/
def createRepository (opts : Option Options) (rendered : String) (user generate : Fetch) :
    Eff Ctx := do
  let o : Options := opts.getD {}
  let blob := o.blob
  let name := o.name
  let githubUser := o.githubUser
  let githubToken := o.githubToken
  let templateOwner := o.templateOwner.withDefault (.str "Deep-sea-lab")
  let templateRepo := o.templateRepo.withDefault (.str "02packager-template")
  let workflowId := o.workflowId.withDefault (.str "main.yml")
  let autoDelete := o.autoDelete.withDefault (.bool false)
  let pollIntervalMs := o.pollIntervalMs.getD 10000
  let pollMaxAttempts := o.pollMaxAttempts.getD 60
  if !githubUser.truthy || !githubToken.truthy then
    Eff.throw (.error "Missing GitHub username or token")
  else if !blob.truthy || !name.truthy then
    Eff.throw (.error "Missing blob or filename")
  else do
  let repoName := repoNameOf rendered
  let genUrl := apiBase ++ "/repos/" ++ templateOwner.toStr ++ "/" ++ templateRepo.toStr
    ++ "/generate"
  progress "正在检查用户类型..."
  let userResp ← fetch user
    { site := .accountLookup, url := apiBase ++ "/users/" ++ githubUser.toStr,
      headers := authHeaders githubToken }
  if !userResp.ok then
    Eff.throw (.error ("无法获取用户信息: " ++ toString userResp.status))
  else do
  let userData ← userResp.parse
  let isOrg := (← prop userData "type").isStr "Organization"
  progress ("正在从模板仓库生成新仓库" ++ (if isOrg then " (组织)" else "") ++ "...")
  let generateResp ← fetch generate
    { site := .generate, method := "POST", url := genUrl, headers := jsonHeaders githubToken,
      body := some (.obj [("owner", githubUser), ("name", .str repoName),
        ("description", .str "Temp repo created by packager from template"),
        ("private", .bool false)]) }
  if !generateResp.ok then
    Eff.throw (.error ("无法从模板生成仓库 (status: " ++ toString generateResp.status
      ++ "). 错误: " ++ generateResp.text))
  else do
  let genJson ← generateResp.parse
  let createdRepoUrl := (← prop genJson "html_url").orElse
    (.str ("https://github.com/" ++ githubUser.toStr ++ "/" ++ repoName))
  progress ("仓库已从模板生成: " ++ createdRepoUrl.toStr)
  return { blob := blob, name := name, githubUser := githubUser, workflowId := workflowId,
           autoDelete := autoDelete, pollIntervalMs := pollIntervalMs,
           pollMaxAttempts := pollMaxAttempts, repoName := repoName,
           createdRepoUrl := createdRepoUrl }

/-- Lines 76-187: the workflow file is written to the repository; a response
that is not ok is only logged. -/
def installWorkflow (install : Fetch) (githubToken : JVal) (c : Ctx) : Eff Unit := do
  progress "正在添加构建工作流..."
  let workflowBase64 ← match btoa workflowContent with
    | some b => pure b
    | none => Eff.throw (.rejected "InvalidCharacterError")
  let workflowResp ← fetch install
    { site := .workflowInstall, method := "PUT",
      url := apiBase ++ "/repos/" ++ c.githubUser.toStr ++ "/" ++ c.repoName
        ++ "/contents/.github/workflows/" ++ c.workflowId.toStr,
      headers := jsonHeaders githubToken,
      body := some (.obj [("message", .str "Add Cordova build workflow"),
        ("content", .str workflowBase64)]) }
  if !workflowResp.ok then
    consoleWarn "添加工作流失败:" (.str workflowResp.text)
  else
    progress "构建工作流已添加"

/-- Lines 189-214: the packed file is encoded and uploaded. -/
def uploadArtifact (upload : Fetch) (githubToken : JVal) (c : Ctx) : Eff Unit := do
  progress ("开始上传打包文件 " ++ c.name.toStr ++ " 到仓库 " ++ c.githubUser.toStr ++ "/"
    ++ c.repoName ++ " ...")
  let bytes ← match c.blob with
    | .blob bytes => pure bytes
    | .value _ => Eff.throw (.typeError "blob.arrayBuffer is not a function")
  let binary := binaryString bytes
  let base64 ← match btoa binary with
    | some b => pure b
    | none => Eff.throw (.rejected "InvalidCharacterError")
  let putUrl := apiBase ++ "/repos/" ++ c.githubUser.toStr ++ "/" ++ c.repoName ++ "/contents/"
    ++ encodeURIComponent c.name.toStr
  let putResp ← fetch upload
    { site := .upload, method := "PUT", url := putUrl, headers := jsonHeaders githubToken,
      body := some (.obj [("message", .str ("Upload " ++ c.name.toStr ++ " via packager")),
        ("content", .str base64)]) }
  if !putResp.ok then
    Eff.throw (.error ("上传文件失败: " ++ toString putResp.status ++ " " ++ putResp.text))
  else
    progress "打包文件上传完成"

/-- Lines 216-231: the workflow dispatch. -/
def triggerBuild (dispatch : Fetch) (githubToken : JVal) (c : Ctx) : Eff Unit := do
  let dispatchUrl := apiBase ++ "/repos/" ++ c.githubUser.toStr ++ "/" ++ c.repoName
    ++ "/actions/workflows/" ++ c.workflowId.toStr ++ "/dispatches"
  let dispatchResp ← fetch dispatch
    { site := .dispatch, method := "POST", url := dispatchUrl,
      headers := jsonHeaders githubToken, body := some (.obj [("ref", .str "main")]) }
  if !([204, 201, 202].contains dispatchResp.status) then
    Eff.throw (.error ("触发 workflow 失败: " ++ toString dispatchResp.status ++ " "
      ++ dispatchResp.text))
  else
    progress "已触发 GitHub Actions workflow，开始轮询执行状态..."

/-- Lines 238-266: the loop `while (attempt < pollMaxAttempts) { attempt++; ... }`
entered with `attempt` and `runObj`, where `remaining` is
`pollMaxAttempts - attempt`. It completes with the value of `runObj` on
leaving the loop (after `break`, or because the condition is false). -/
def pollLoop (runs detail : Nat → Fetch) (githubToken githubUser : JVal) (repoName : String)
    (pollIntervalMs : Nat) : (remaining attempt : Nat) → (runObj : JVal) → Eff JVal
  | 0, _, runObj => pure runObj
  | remaining + 1, attempt, runObj => do
    let attempt := attempt + 1
    Eff.emit (.sleep (if attempt = 1 then 2000 else pollIntervalMs))
    let runsUrlBase := apiBase ++ "/repos/" ++ githubUser.toStr ++ "/" ++ repoName
      ++ "/actions/runs"
    let runsResp ← fetch (runs attempt)
      { site := .runsList, url := runsUrlBase ++ "?per_page=1",
        headers := authHeaders githubToken }
    if !runsResp.ok then
      pollLoop runs detail githubToken githubUser repoName pollIntervalMs remaining attempt runObj
    else do
    let runsJson ← runsResp.parse
    let workflowRuns ← prop runsJson "workflow_runs"
    let wr ← if workflowRuns.truthy then index0 workflowRuns else pure workflowRuns
    if !wr.truthy then
      pollLoop runs detail githubToken githubUser repoName pollIntervalMs remaining attempt runObj
    else do
    let runId ← prop wr "id"
    let runResp ← fetch (detail attempt)
      { site := .runDetail,
        url := apiBase ++ "/repos/" ++ githubUser.toStr ++ "/" ++ repoName ++ "/actions/runs/"
          ++ runId.toStr,
        headers := authHeaders githubToken }
    if !runResp.ok then
      pollLoop runs detail githubToken githubUser repoName pollIntervalMs remaining attempt runObj
    else do
    let runObj ← runResp.parse
    let status ← prop runObj "status"
    let conclusion ← prop runObj "conclusion"
    progress ("工作流状态: " ++ status.toStr ++ " 结论: "
      ++ (conclusion.orElse (.str "pending")).toStr)
    if conclusion.isStr "success" then pure runObj
    else if conclusion.truthy && (conclusion.isStr "failure" || conclusion.isStr "cancelled"
        || conclusion.isStr "timed_out") then
      Eff.throw (.error ("Workflow finished with conclusion: " ++ conclusion.toStr))
    else
      pollLoop runs detail githubToken githubUser repoName pollIntervalMs remaining attempt runObj

/-- Lines 267-269: the check of `runObj` after the loop. -/
def checkRun (runObj : JVal) : Eff Unit := do
  let failed ← if !runObj.truthy then pure true
    else do pure (!(← prop runObj "conclusion").isStr "success")
  if failed then
    Eff.throw (.error "Workflow did not complete successfully in time")
  else
    progress "工作流执行成功，尝试获取 Release 及其资产..."

/-- Lines 294-311: the block `if (autoDelete) { try { ... } catch (e) { ... } }`. -/
def cleanup (delete : Fetch) (githubToken : JVal) (c : Ctx) : Eff Unit :=
  if c.autoDelete.truthy then
    Eff.tryCatch
      (do
        let delResp ← fetch delete
          { site := .deleteRepo, method := "DELETE",
            url := apiBase ++ "/repos/" ++ c.githubUser.toStr ++ "/" ++ c.repoName,
            headers := authHeaders githubToken }
        if !delResp.ok then do
          let errorData : JVal := match delResp.json with
            | .ok v => v
            | .error _ => .obj []
          let message ← prop errorData "message"
          consoleWarn "删除临时仓库失败:"
            (message.orElse (.str ("HTTP " ++ toString delResp.status)))
          progress ("警告: 无法自动删除临时仓库，请手动删除: " ++ c.createdRepoUrl.toStr)
        else
          progress "临时仓库已自动删除")
      (fun e => do
        consoleWarn "删除临时仓库时发生错误:" (.str e.message)
        progress ("警告: 无法自动删除临时仓库，请手动删除: " ++ c.createdRepoUrl.toStr))
  else pure ()

/-- Lines 273-319: the latest release and its first asset, the optional
deletion of the repository, and the returned value. -/
def resolveRelease (release delete : Fetch) (githubToken : JVal) (c : Ctx) : Eff Result := do
  let releaseResp ← fetch release
    { site := .latestRelease,
      url := apiBase ++ "/repos/" ++ c.githubUser.toStr ++ "/" ++ c.repoName
        ++ "/releases/latest",
      headers := authHeaders githubToken }
  if !releaseResp.ok then
    Eff.throw (.error ("获取 release 失败: " ++ toString releaseResp.status ++ " "
      ++ releaseResp.text))
  else do
  let releaseJson ← releaseResp.parse
  let assets ← prop releaseJson "assets"
  let noAssets ← if !assets.truthy then pure true
    else do pure (← prop assets "length").isZero
  if noAssets then
    Eff.throw (.error "未找到 release 资产")
  else do
  let asset ← index0 assets
  let downloadUrl ← prop asset "browser_download_url"
  progress ("找到 release 资产: " ++ (← prop asset "name").toStr)
  let assetDownloadUrl := downloadUrl
  cleanup delete githubToken c
  let releaseUrl := (← prop releaseJson "html_url").orElse
    (.str (c.createdRepoUrl.toStr ++ "/releases/latest"))
  let assetName ← prop asset "name"
  return { createdRepoUrl := c.createdRepoUrl, releaseUrl := releaseUrl,
           assetName := assetName, assetDownloadUrl := assetDownloadUrl }

/-- The function `uploadAndBuildFromTemplate(opts, progressCallback)`, its
stages in source order. `opts = none` is an absent (or falsy) options
argument, `rendered` is the value of `Math.random().toString(36)` and `sim`
answers the requests. -/
def uploadAndBuildFromTemplate (opts : Option Options) (rendered : String) (sim : Sim) :
    Eff Result := do
  let githubToken := (opts.getD {}).githubToken
  let c ← createRepository opts rendered sim.user sim.generate
  installWorkflow sim.install githubToken c
  uploadArtifact sim.upload githubToken c
  triggerBuild sim.dispatch githubToken c
  let runObj ← pollLoop sim.runs sim.detail githubToken c.githubUser c.repoName
    c.pollIntervalMs c.pollMaxAttempts 0 .null
  checkRun runObj
  resolveRelease sim.release sim.delete githubToken c

/-- The requests of a trace, in the order issued. -/
def requestsOf (t : List Event) : List Request :=
  t.filterMap fun e => match e with
    | .request r => some r
    | _ => none

/-- The progress messages of a trace, in order. -/
def progressOf (t : List Event) : List String :=
  t.filterMap fun e => match e with
    | .progress m => some m
    | _ => none

/-- The call sites of the requests of a trace, in the order issued. -/
def sitesOf (t : List Event) : List Site := (requestsOf t).map (·.site)

/-! ## Vocabulary of the specification -/

/-- A character of the base-36 alphabet `0-9a-z`. -/
def isBase36 (c : Char) : Bool := c.isDigit || c.isLower

/-- The options the pipeline runs with: `opts || {}`. -/
def optionsOf (opts : Option Options) : Options := opts.getD {}

/-- The attempt budget: `pollMaxAttempts`, 60 when the option is absent. -/
def attemptBudget (opts : Option Options) : Nat := (optionsOf opts).pollMaxAttempts.getD 60

/-- The required inputs are present: account, credential and filename are
truthy and the content is a `Blob`. -/
def inputsOk (opts : Option Options) : Bool :=
  (optionsOf opts).githubUser.truthy && (optionsOf opts).githubToken.truthy
    && (optionsOf opts).name.truthy
    && (match (optionsOf opts).blob with
        | .blob _ => true
        | .value _ => false)

/-- The body of a response that is ok and whose JSON body is a value other
than `null`. -/
def Fetch.okJson : Fetch → Option JVal
  | .responds r =>
    if r.ok then
      match r.json with
      | .ok j => if j.nullish then none else some j
      | .error _ => none
    else none
  | .fails _ => none

/-- The request was answered by a response (ok or not). -/
def Fetch.answered : Fetch → Bool
  | .responds _ => true
  | .fails _ => false

/-- The request was answered by an ok response. -/
def Fetch.isOk : Fetch → Bool
  | .responds r => r.ok
  | .fails _ => false

/-- The status of the response, if the request was answered. -/
def Fetch.status? : Fetch → Option Nat
  | .responds r => some r.status
  | .fails _ => none

/-- Stages 1-2 succeed: account lookup and repository generation are answered
by ok responses with a JSON body. -/
def repositoryCreated (sim : Sim) : Bool :=
  sim.user.okJson.isSome && sim.generate.okJson.isSome

/-- The artifact is uploaded (stages 1-4): the inputs are present, stages 1-2
succeed, the workflow install is answered and the upload is answered by
an ok response. -/
def uploaded (opts : Option Options) (sim : Sim) : Bool :=
  inputsOk opts && repositoryCreated sim && sim.install.answered && sim.upload.isOk

/-- Stages 1-5 succeed: the build is dispatched and the poller starts. -/
def dispatched (opts : Option Options) (sim : Sim) : Bool :=
  uploaded opts sim
    && (match sim.dispatch.status? with
        | some status => [204, 201, 202].contains status
        | none => false)

/-- The run that a runs-list body names: `workflow_runs && workflow_runs[0]`. -/
def latestRun (runsJson : JVal) : JVal :=
  (runsJson.field "workflow_runs").andThen (runsJson.field "workflow_runs").first

/-- What one polling attempt observes. -/
inductive AttemptKind where
  /-- The runs-list response is not ok. -/
  | listNotOk
  /-- The runs list names no run. -/
  | noRun
  /-- The run-detail response is not ok. -/
  | detailNotOk
  /-- The run detail was read; it carries this `conclusion`. -/
  | concluded (conclusion : JVal)
  /-- A request was not answered, or a body is not JSON or is `null`. -/
  | broken

/-- The kind of the polling attempt whose two requests are answered by `runs`
and `detail`. -/
def attemptKind (runs detail : Fetch) : AttemptKind :=
  match runs with
  | .fails _ => .broken
  | .responds r =>
    if !r.ok then .listNotOk
    else match r.json with
      | .error _ => .broken
      | .ok j =>
        if j.nullish then .broken
        else if !(latestRun j).truthy then .noRun
        else match detail with
          | .fails _ => .broken
          | .responds d =>
            if !d.ok then .detailNotOk
            else match d.json with
              | .error _ => .broken
              | .ok o => if o.nullish then .broken else .concluded (o.field "conclusion")

/-- The four terminal conclusions. -/
def terminalConclusion (c : JVal) : Bool :=
  c.isStr "success" || c.isStr "failure" || c.isStr "cancelled" || c.isStr "timed_out"

/-- The attempt yields no terminal conclusion: a runs list that is not ok or
names no run, a run detail that is not ok, or a detail with another
conclusion. -/
def nonTerminal (runs detail : Fetch) : Bool :=
  match attemptKind runs detail with
  | .listNotOk => true
  | .noRun => true
  | .detailNotOk => true
  | .concluded c => !terminalConclusion c
  | .broken => false

/-- The attempt reads a run detail whose conclusion is the string `c`. -/
def concludes (runs detail : Fetch) (c : String) : Bool :=
  match attemptKind runs detail with
  | .concluded v => v.isStr c
  | _ => false

/-- The request carries the credential and the media type. -/
def Request.authorized (githubToken : JVal) (r : Request) : Prop :=
  ("Authorization", "token " ++ githubToken.toStr) ∈ r.headers
    ∧ ("Accept", "application/vnd.github+json") ∈ r.headers

/-- The context computed by lines 2-74 when they succeed. -/
def ctxOf (opts : Option Options) (rendered : String) (genJson : JVal) : Ctx :=
  { blob := (optionsOf opts).blob
    name := (optionsOf opts).name
    githubUser := (optionsOf opts).githubUser
    workflowId := (optionsOf opts).workflowId.withDefault (.str "main.yml")
    autoDelete := (optionsOf opts).autoDelete.withDefault (.bool false)
    pollIntervalMs := (optionsOf opts).pollIntervalMs.getD 10000
    pollMaxAttempts := attemptBudget opts
    repoName := repoNameOf rendered
    createdRepoUrl := (genJson.field "html_url").orElse
      (.str ("https://github.com/" ++ (optionsOf opts).githubUser.toStr ++ "/"
        ++ repoNameOf rendered)) }

/-- The value of `runObj` does not let the check after the loop pass. -/
def notSucceeded (runObj : JVal) : Bool :=
  !runObj.truthy || !(runObj.field "conclusion").isStr "success"

/-- Lines 234-319: the poller, the check of its result, and the release. -/
def pollAndResolve (sim : Sim) (githubToken : JVal) (c : Ctx) : Eff Result := do
  let runObj ← pollLoop sim.runs sim.detail githubToken c.githubUser c.repoName
    c.pollIntervalMs c.pollMaxAttempts 0 .null
  checkRun runObj
  resolveRelease sim.release sim.delete githubToken c

/-- The value returned when the release `releaseJson` has the first asset
`asset`. -/
def resultOf (c : Ctx) (releaseJson asset : JVal) : Result :=
  { createdRepoUrl := c.createdRepoUrl
    releaseUrl := (releaseJson.field "html_url").orElse
      (.str (c.createdRepoUrl.toStr ++ "/releases/latest"))
    assetName := asset.field "name"
    assetDownloadUrl := asset.field "browser_download_url" }


/-- The completion of `await fetch(...)`: it does not depend on the request. -/
def Fetch.result : Fetch → Except Thrown Response
  | .fails reason => .error (.rejected reason)
  | .responds r => .ok r

/-- Every request of the computation satisfies `P`. -/
def Eff.AllRequests {α : Type} (P : Request → Prop) (m : Eff α) : Prop :=
  ∀ r ∈ requestsOf m.trace, P r

/-- Every value the computation completes with satisfies `Q`. -/
def Eff.Returns {α : Type} (Q : α → Prop) (m : Eff α) : Prop :=
  ∀ a, m.outcome = .ok a → Q a

/-- The request is not the deletion of the repository. -/
def Request.notDelete (r : Request) : Prop := r.method ≠ "DELETE" ∧ r.site ≠ .deleteRepo

/-- The request carries the credential and the media type, and it is not a
deletion unless deletion was asked for. -/
def Request.wellFormed (githubToken : JVal) (autoDelete : Bool) (r : Request) : Prop :=
  r.authorized githubToken ∧ (autoDelete = false → r.notDelete)


/-- The request is not issued by the upload call site. -/
def Request.notUpload (r : Request) : Prop := r.site ≠ .upload

/-! ## Sample inputs -/

/-- An ok response (status 200) with the JSON body `j`. -/
def Fetch.json (j : JVal) : Fetch := .responds { ok := true, status := 200, json := .ok j }

/-- A response with the given status and text and no JSON body; `ok` as the
Fetch standard defines it (status 200 to 299). -/
def Fetch.plain (status : Nat) (text : String) : Fetch :=
  .responds { ok := decide (200 ≤ status ∧ status ≤ 299), status := status, text := text,
              json := .error "Unexpected end of JSON input" }

/-- Sample options: a four-byte blob, three polling attempts, `autoDelete`
omitted. -/
def sampleOptions : Options :=
  { blob := .blob [80, 75, 3, 4], name := .str "project.zip", githubUser := .str "octocat",
    githubToken := .str "ghp_secret", pollMaxAttempts := some 3 }

/-- A run-detail body with the given conclusion. -/
def runBody (conclusion : JVal) : JVal :=
  .obj [("id", .num 7), ("status", .str "completed"), ("conclusion", conclusion)]

/-- A sample server: every stage succeeds, every attempt finds run 7 still in
progress, the latest release has two assets, and the deletion succeeds. -/
def sampleSim : Sim :=
  { user := Fetch.json (.obj [("login", .str "octocat"), ("type", .str "User")])
    generate := Fetch.json (.obj [("html_url", .str "https://github.com/octocat/tmp")])
    install := Fetch.plain 201 "created"
    upload := Fetch.plain 201 "created"
    dispatch := Fetch.plain 204 ""
    runs := fun _ => Fetch.json (.obj [("workflow_runs", .arr [.obj [("id", .num 7)]])])
    detail := fun _ => Fetch.json
      (.obj [("id", .num 7), ("status", .str "in_progress"), ("conclusion", .null)])
    release := Fetch.json (.obj [("html_url", .str "https://github.com/octocat/tmp/releases/1"),
      ("assets", .arr [
        .obj [("name", .str "app-debug.apk"), ("browser_download_url", .str "https://dl/1")],
        .obj [("name", .str "notes.txt"), ("browser_download_url", .str "https://dl/2")]])])
    delete := Fetch.plain 204 "" }

/-- The sample server, its run concluding with `conclusion` at attempt 2. -/
def concludingSim (conclusion : String) : Sim :=
  { sampleSim with
    detail := fun k => if k = 2 then Fetch.json (runBody (.str conclusion))
      else sampleSim.detail k }

/-- A server that cannot be reached: every `fetch` rejects. -/
def offlineSim : Sim :=
  { user := .fails "Failed to fetch", generate := .fails "Failed to fetch",
    install := .fails "Failed to fetch", upload := .fails "Failed to fetch",
    dispatch := .fails "Failed to fetch", runs := fun _ => .fails "Failed to fetch",
    detail := fun _ => .fails "Failed to fetch", release := .fails "Failed to fetch",
    delete := .fails "Failed to fetch" }


/-! ## Lemmas: base 64 -/

theorem charCode_ofNat (n : Nat) (h : n < 256) : (Char.ofNat n).toNat = n := by
  have hv : n.isValidChar := Or.inl (by omega)
  simp [Char.ofNat, hv, Char.ofNatAux, Char.toNat, UInt32.toNat, BitVec.toNat_ofNatLt]

set_option maxRecDepth 100000 in
theorem b64index_b64char : ∀ n, n < 64 → b64index (b64char n) = some n := by
  decide

set_option maxRecDepth 100000 in
theorem b64char_ne_pad : ∀ n, n < 64 → b64char n ≠ '=' := by
  decide

theorem b64decode_b64encode (l : List Nat) (h : ∀ x ∈ l, x < 256) :
    b64decode (b64encode l) = some l := by
  induction l using b64encode.induct with
  | case1 a b c rest ih =>
    have ha : a < 256 := h a (by simp)
    have hb : b < 256 := h b (by simp)
    have hc : c < 256 := h c (by simp)
    have hr : ∀ x ∈ rest, x < 256 := fun x hx => h x (by simp [hx])
    have h0 := b64index_b64char (a / 4) (by omega)
    have h1 := b64index_b64char (a % 4 * 16 + b / 16) (by omega)
    have h2 := b64index_b64char (b % 16 * 4 + c / 64) (by omega)
    have h3 := b64index_b64char (c % 64) (by omega)
    have hp := b64char_ne_pad (c % 64) (by omega)
    simp only [b64encode, b64decode, hp, if_false, h0, h1, h2, h3, ih hr, Option.some_bind,
      Option.some.injEq, List.cons.injEq, and_true]
    refine ⟨?_, ?_, ?_⟩ <;> omega
  | case2 a b =>
    have ha : a < 256 := h a (by simp)
    have hb : b < 256 := h b (by simp)
    have h0 := b64index_b64char (a / 4) (by omega)
    have h1 := b64index_b64char (a % 4 * 16 + b / 16) (by omega)
    have h2 := b64index_b64char (b % 16 * 4) (by omega)
    have hp := b64char_ne_pad (b % 16 * 4) (by omega)
    simp only [b64encode, b64decode, hp, if_false, if_true, h0, h1, h2, Option.some_bind,
      Option.some.injEq, List.cons.injEq, and_true, ne_eq, not_true_eq_false]
    refine ⟨?_, ?_⟩ <;> omega
  | case3 a =>
    have ha : a < 256 := h a (by simp)
    have h0 := b64index_b64char (a / 4) (by omega)
    have h1 := b64index_b64char (a % 4 * 16) (by omega)
    simp only [b64encode, b64decode, if_false, if_true, h0, h1, Option.some_bind,
      Option.some.injEq, List.cons.injEq, and_true, ne_eq, not_true_eq_false]
    omega
  | case4 => simp [b64encode, b64decode]

theorem fromCharCode_append (xs ys : List Byte) :
    fromCharCode xs ++ fromCharCode ys = fromCharCode (xs ++ ys) := by
  simp [fromCharCode, String.ext_iff]

theorem chunkLoop_eq (bytes : List Byte) (i : Nat) (binary : String) :
    chunkLoop bytes i binary = binary ++ fromCharCode (bytes.drop i) := by
  induction i, binary using chunkLoop.induct bytes with
  | case1 i binary hlt ih =>
    rw [chunkLoop, if_pos hlt, ih, String.append_assoc, fromCharCode_append, subarray,
      Nat.add_sub_cancel_left, ← List.drop_drop, List.take_append_drop]
  | case2 i binary hge =>
    rw [chunkLoop, if_neg hge, List.drop_eq_nil_of_le (by omega)]
    simp [fromCharCode]

theorem binaryString_eq_fromCharCode (bytes : List Byte) :
    binaryString bytes = fromCharCode bytes := by
  simp [binaryString, chunkLoop_eq, fromCharCode, String.ext_iff]

/-! ## Laws of the effect monad -/

namespace Eff

variable {α β : Type}

@[simp] theorem outcome_pure (a : α) : (pure a : Eff α).outcome = .ok a := rfl
@[simp] theorem trace_pure (a : α) : (pure a : Eff α).trace = [] := rfl
@[simp] theorem outcome_throw (e : Thrown) : (Eff.throw e : Eff α).outcome = .error e := rfl
@[simp] theorem trace_throw (e : Thrown) : (Eff.throw e : Eff α).trace = [] := rfl
@[simp] theorem outcome_emit (e : Event) : (Eff.emit e).outcome = .ok () := rfl
@[simp] theorem trace_emit (e : Event) : (Eff.emit e).trace = [e] := rfl

@[simp] theorem outcome_bind (m : Eff α) (f : α → Eff β) :
    (m >>= f).outcome = match m.outcome with
      | .ok a => (f a).outcome
      | .error e => .error e := by
  rcases m with ⟨_ | _, t⟩ <;> rfl

@[simp] theorem trace_bind (m : Eff α) (f : α → Eff β) :
    (m >>= f).trace = m.trace ++ match m.outcome with
      | .ok a => (f a).trace
      | .error _ => [] := by
  rcases m with ⟨_ | _, t⟩
  · simp [trace, outcome, Bind.bind, Eff.bind]
  · rfl

theorem outcome_bind_ok {m : Eff α} {a : α} (h : m.outcome = .ok a) (f : α → Eff β) :
    (m >>= f).outcome = (f a).outcome := by
  rw [outcome_bind, h]

theorem trace_bind_ok {m : Eff α} {a : α} (h : m.outcome = .ok a) (f : α → Eff β) :
    (m >>= f).trace = m.trace ++ (f a).trace := by
  rw [trace_bind, h]

theorem outcome_bind_error {m : Eff α} {e : Thrown} (h : m.outcome = .error e)
    (f : α → Eff β) : (m >>= f).outcome = .error e := by
  rw [outcome_bind, h]

theorem trace_bind_error {m : Eff α} {e : Thrown} (h : m.outcome = .error e)
    (f : α → Eff β) : (m >>= f).trace = m.trace := by
  rw [trace_bind, h]; simp

theorem outcome_tryCatch (m : Eff α) (h : Thrown → Eff α) :
    (Eff.tryCatch m h).outcome = match m.outcome with
      | .ok a => .ok a
      | .error e => (h e).outcome := by
  rcases m with ⟨_ | _, t⟩ <;> rfl

theorem trace_tryCatch (m : Eff α) (h : Thrown → Eff α) :
    (Eff.tryCatch m h).trace = m.trace ++ match m.outcome with
      | .ok _ => []
      | .error e => (h e).trace := by
  rcases m with ⟨_ | _, t⟩
  · rfl
  · simp [trace, outcome, Eff.tryCatch]

end Eff

@[simp] theorem outcome_progress (msg : String) : (progress msg).outcome = .ok () := rfl
@[simp] theorem trace_progress (msg : String) : (progress msg).trace = [.progress msg] := rfl
@[simp] theorem outcome_consoleWarn (l : String) (d : JVal) :
    (consoleWarn l d).outcome = .ok () := rfl
@[simp] theorem trace_consoleWarn (l : String) (d : JVal) :
    (consoleWarn l d).trace = [.warn l d] := rfl

@[simp] theorem trace_fetch (out : Fetch) (req : Request) :
    (fetch out req).trace = [.request req] := by
  cases out <;> rfl

@[simp] theorem outcome_fetch_responds (r : Response) (req : Request) :
    (fetch (.responds r) req).outcome = .ok r := rfl

@[simp] theorem outcome_fetch_fails (reason : String) (req : Request) :
    (fetch (.fails reason) req).outcome = .error (.rejected reason) := rfl

@[simp] theorem trace_parse (r : Response) : r.parse.trace = [] := by
  unfold Response.parse; split <;> rfl

theorem outcome_parse_ok {r : Response} {j : JVal} (h : r.json = .ok j) :
    r.parse.outcome = .ok j := by
  unfold Response.parse; rw [h]; rfl

@[simp] theorem trace_prop (v : JVal) (key : String) : (prop v key).trace = [] := by
  unfold prop; split <;> rfl

theorem outcome_prop {v : JVal} (h : v.nullish = false) (key : String) :
    (prop v key).outcome = .ok (v.field key) := by
  unfold prop; rw [h]; rfl

@[simp] theorem trace_index0 (v : JVal) : (index0 v).trace = [] := by
  unfold index0; split <;> rfl

theorem outcome_index0 {v : JVal} (h : v.nullish = false) :
    (index0 v).outcome = .ok v.first := by
  unfold index0; rw [h]; rfl

theorem JVal.nullish_of_truthy {v : JVal} (h : v.truthy = true) : v.nullish = false := by
  cases v <;> simp_all [JVal.truthy, JVal.nullish]

/-! ## The stages, one by one -/

theorem Fetch.okJson_some {f : Fetch} {j : JVal} (h : f.okJson = some j) :
    ∃ r, f = .responds r ∧ r.ok = true ∧ r.json = .ok j ∧ j.nullish = false := by
  cases f with
  | fails s => simp [Fetch.okJson] at h
  | responds r =>
    refine ⟨r, rfl, ?_⟩
    simp only [Fetch.okJson] at h
    cases hok : r.ok with
    | false => simp [hok] at h
    | true =>
      cases hj : r.json with
      | error e => simp [hok, hj] at h
      | ok v =>
        cases hn : v.nullish with
        | true => simp [hok, hj, hn] at h
        | false =>
          simp [hok, hj, hn] at h
          subst h
          exact ⟨rfl, rfl, hn⟩

theorem inputsOk_iff {opts : Option Options} (h : inputsOk opts = true) :
    (optionsOf opts).githubUser.truthy = true ∧ (optionsOf opts).githubToken.truthy = true
      ∧ (optionsOf opts).name.truthy = true ∧ ∃ bytes, (optionsOf opts).blob = .blob bytes := by
  unfold inputsOk at h
  simp only [Bool.and_eq_true] at h
  obtain ⟨⟨⟨h1, h2⟩, h3⟩, h4⟩ := h
  refine ⟨h1, h2, h3, ?_⟩
  cases hb : (optionsOf opts).blob with
  | value v => simp [hb] at h4
  | blob bytes => exact ⟨bytes, rfl⟩

theorem createRepository_ok {opts : Option Options} {user generate : Fetch} {ju jg : JVal}
    (rendered : String) (hin : inputsOk opts = true)
    (hu : user.okJson = some ju) (hg : generate.okJson = some jg) :
    (createRepository opts rendered user generate).outcome = .ok (ctxOf opts rendered jg)
      ∧ sitesOf (createRepository opts rendered user generate).trace
          = [.accountLookup, .generate] := by
  obtain ⟨ru, rfl, huok, huj, hun⟩ := Fetch.okJson_some hu
  obtain ⟨rg, rfl, hgok, hgj, hgn⟩ := Fetch.okJson_some hg
  obtain ⟨h1, h2, h3, bytes, h4⟩ := inputsOk_iff hin
  simp only [optionsOf] at h1 h2 h3 h4
  simp [createRepository, h1, h2, h3, h4, BlobArg.truthy, Eff.outcome_bind, Eff.trace_bind,
    huok, hgok, outcome_parse_ok huj, outcome_parse_ok hgj, outcome_prop hun, outcome_prop hgn,
    sitesOf, requestsOf, ctxOf, optionsOf, attemptBudget]

set_option maxRecDepth 1000000 in
theorem btoa_workflowContent : (workflowContent.toList.all fun c => c.toNat < 256) = true := by
  decide

theorem toList_fromCharCode (bytes : List Byte) :
    (fromCharCode bytes).toList.map Char.toNat = bytes.map Fin.val := by
  show (bytes.map fun b => Char.ofNat b.val).map Char.toNat = bytes.map Fin.val
  rw [List.map_map]
  apply List.map_congr_left
  intro b _
  exact charCode_ofNat b.val b.isLt

theorem btoa_fromCharCode (bytes : List Byte) :
    btoa (fromCharCode bytes) = some (String.mk (b64encode (bytes.map Fin.val))) := by
  have hall : ((fromCharCode bytes).toList.all fun c => decide (c.toNat < 256)) = true := by
    show ((bytes.map fun b => Char.ofNat b.val).all fun c => decide (c.toNat < 256)) = true
    simp only [List.all_eq_true, List.mem_map, decide_eq_true_eq]
    rintro c ⟨b, _, rfl⟩
    rw [charCode_ofNat b.val b.isLt]
    exact b.isLt
  rw [btoa, if_pos hall, toList_fromCharCode]

theorem atob_btoa_fromCharCode (bytes : List Byte) :
    atob (String.mk (b64encode (bytes.map Fin.val))) = some (fromCharCode bytes) := by
  have h := b64decode_b64encode (bytes.map Fin.val) (by
    intro x hx
    obtain ⟨b, _, rfl⟩ := List.mem_map.1 hx
    exact b.isLt)
  simp [atob, h, fromCharCode, Function.comp_def]

theorem installWorkflow_responds (r : Response) (githubToken : JVal) (c : Ctx) :
    (installWorkflow (.responds r) githubToken c).outcome = .ok ()
      ∧ sitesOf (installWorkflow (.responds r) githubToken c).trace = [.workflowInstall] := by
  have hb : btoa workflowContent
      = some (String.mk (b64encode (workflowContent.toList.map Char.toNat))) := by
    rw [btoa, if_pos btoa_workflowContent]
  cases hok : r.ok <;>
    simp [installWorkflow, hb, hok, Eff.outcome_bind, Eff.trace_bind, sitesOf, requestsOf]

theorem uploadArtifact_ok {upload : Fetch} {c : Ctx} {bytes : List Byte} (githubToken : JVal)
    (hb : c.blob = .blob bytes) (hu : upload.isOk = true) :
    (uploadArtifact upload githubToken c).outcome = .ok ()
      ∧ sitesOf (uploadArtifact upload githubToken c).trace = [.upload] := by
  cases upload with
  | fails s => simp [Fetch.isOk] at hu
  | responds r =>
    simp only [Fetch.isOk] at hu
    simp [uploadArtifact, hb, hu, binaryString_eq_fromCharCode, btoa_fromCharCode,
      Eff.outcome_bind, Eff.trace_bind, sitesOf, requestsOf]

theorem triggerBuild_accepted {r : Response} (githubToken : JVal) (c : Ctx)
    (h : [204, 201, 202].contains r.status = true) :
    (triggerBuild (.responds r) githubToken c).outcome = .ok ()
      ∧ sitesOf (triggerBuild (.responds r) githubToken c).trace = [.dispatch]
      ∧ progressOf (triggerBuild (.responds r) githubToken c).trace
          = ["已触发 GitHub Actions workflow，开始轮询执行状态..."] := by
  simp only [triggerBuild, h, Eff.outcome_bind, Eff.trace_bind, outcome_fetch_responds,
    trace_fetch, Bool.not_true, Bool.false_eq_true, if_false]
  simp [sitesOf, requestsOf, progressOf]

theorem triggerBuild_refused {r : Response} (githubToken : JVal) (c : Ctx)
    (h : [204, 201, 202].contains r.status = false) :
    (triggerBuild (.responds r) githubToken c).outcome
        = .error (.error ("触发 workflow 失败: " ++ toString r.status ++ " " ++ r.text))
      ∧ sitesOf (triggerBuild (.responds r) githubToken c).trace = [.dispatch] := by
  simp only [triggerBuild, h, Eff.outcome_bind, Eff.trace_bind, outcome_fetch_responds,
    trace_fetch, Bool.not_false, if_true]
  simp [sitesOf, requestsOf]

theorem pollLoop_step_nonTerminal (runs detail : Nat → Fetch) (tok user : JVal) (repo : String)
    (iv remaining attempt : Nat) (runObj : JVal)
    (h : nonTerminal (runs (attempt + 1)) (detail (attempt + 1)) = true)
    (hv : notSucceeded runObj = true) :
    ∃ (t : List Event) (v : JVal),
      (pollLoop runs detail tok user repo iv (remaining + 1) attempt runObj).outcome
          = (pollLoop runs detail tok user repo iv remaining (attempt + 1) v).outcome
        ∧ (pollLoop runs detail tok user repo iv (remaining + 1) attempt runObj).trace
          = t ++ (pollLoop runs detail tok user repo iv remaining (attempt + 1) v).trace
        ∧ (sitesOf t = [.runsList] ∨ sitesOf t = [.runsList, .runDetail])
        ∧ notSucceeded v = true := by
  cases hr : runs (attempt + 1) with
  | fails s => simp [nonTerminal, attemptKind, hr] at h
  | responds r =>
    cases hok : r.ok with
    | false =>
      refine ⟨(pollLoop runs detail tok user repo iv (remaining + 1) attempt runObj).trace.take 2,
        runObj, ?_, ?_, ?_, hv⟩
      · simp [pollLoop, hr, hok, Eff.outcome_bind]
      · simp [pollLoop, hr, hok, Eff.outcome_bind, Eff.trace_bind]
      · simp [pollLoop, hr, hok, Eff.outcome_bind, Eff.trace_bind, sitesOf, requestsOf]
    | true =>
      cases hj : r.json with
      | error e => simp [nonTerminal, attemptKind, hr, hok, hj] at h
      | ok j =>
        cases hn : j.nullish with
        | true => simp [nonTerminal, attemptKind, hr, hok, hj, hn] at h
        | false =>
          cases hw : (j.field "workflow_runs").truthy with
          | false =>
            refine ⟨(pollLoop runs detail tok user repo iv (remaining + 1) attempt
              runObj).trace.take 2, runObj, ?_, ?_, ?_, hv⟩
            · simp [pollLoop, hr, hok, outcome_parse_ok hj, outcome_prop hn, hw]
            · simp [pollLoop, hr, hok, outcome_parse_ok hj, outcome_prop hn, hw]
            · simp [pollLoop, hr, hok, outcome_parse_ok hj, outcome_prop hn, hw, sitesOf,
                requestsOf]
          | true =>
            have hi := outcome_index0 (JVal.nullish_of_truthy hw)
            have hlr : latestRun j = (j.field "workflow_runs").first := by
              simp [latestRun, JVal.andThen, hw]
            cases hl : (j.field "workflow_runs").first.truthy with
            | false =>
              refine ⟨(pollLoop runs detail tok user repo iv (remaining + 1) attempt
                runObj).trace.take 2, runObj, ?_, ?_, ?_, hv⟩
              · simp [pollLoop, hr, hok, outcome_parse_ok hj, outcome_prop hn, hw, hi, hl]
              · simp [pollLoop, hr, hok, outcome_parse_ok hj, outcome_prop hn, hw, hi, hl]
              · simp [pollLoop, hr, hok, outcome_parse_ok hj, outcome_prop hn, hw, hi, hl,
                  sitesOf, requestsOf]
            | true =>
              have hid := outcome_prop (JVal.nullish_of_truthy hl) "id"
              cases hd : detail (attempt + 1) with
              | fails s => simp [nonTerminal, attemptKind, hr, hok, hj, hn, hlr, hl, hd] at h
              | responds d =>
                cases hdok : d.ok with
                | false =>
                  refine ⟨(pollLoop runs detail tok user repo iv (remaining + 1) attempt
                    runObj).trace.take 3, runObj, ?_, ?_, ?_, hv⟩
                  · simp [pollLoop, hr, hok, outcome_parse_ok hj, outcome_prop hn, hw, hi, hl,
                      hid, hd, hdok]
                  · simp [pollLoop, hr, hok, outcome_parse_ok hj, outcome_prop hn, hw, hi, hl,
                      hid, hd, hdok]
                  · simp [pollLoop, hr, hok, outcome_parse_ok hj, outcome_prop hn, hw, hi, hl,
                      hid, hd, hdok, sitesOf, requestsOf]
                | true =>
                  cases hdj : d.json with
                  | error e =>
                    simp [nonTerminal, attemptKind, hr, hok, hj, hn, hlr, hl, hd, hdok, hdj] at h
                  | ok o =>
                    cases hon : o.nullish with
                    | true =>
                      simp [nonTerminal, attemptKind, hr, hok, hj, hn, hlr, hl, hd, hdok, hdj,
                        hon] at h
                    | false =>
                      simp [nonTerminal, attemptKind, hr, hok, hj, hn, hlr, hl, hd, hdok, hdj,
                        hon, terminalConclusion] at h
                      obtain ⟨⟨⟨h1, h2⟩, h3⟩, h4⟩ := h
                      refine ⟨(pollLoop runs detail tok user repo iv (remaining + 1) attempt
                        runObj).trace.take 4, o, ?_, ?_, ?_, ?_⟩
                      · simp [pollLoop, hr, hok, outcome_parse_ok hj, outcome_prop hn, hw, hi,
                          hl, hid, hd, hdok, outcome_parse_ok hdj, outcome_prop hon, h1, h2, h3,
                          h4]
                      · simp [pollLoop, hr, hok, outcome_parse_ok hj, outcome_prop hn, hw, hi,
                          hl, hid, hd, hdok, outcome_parse_ok hdj, outcome_prop hon, h1, h2, h3,
                          h4]
                      · simp [pollLoop, hr, hok, outcome_parse_ok hj, outcome_prop hn, hw, hi,
                          hl, hid, hd, hdok, outcome_parse_ok hdj, outcome_prop hon, h1, h2, h3,
                          h4, sitesOf, requestsOf]
                      · simp [notSucceeded, h1]

theorem requestsOf_append (t t' : List Event) :
    requestsOf (t ++ t') = requestsOf t ++ requestsOf t' := by
  simp [requestsOf]

theorem sitesOf_append (t t' : List Event) : sitesOf (t ++ t') = sitesOf t ++ sitesOf t' := by
  simp [sitesOf, requestsOf_append]

@[simp] theorem sitesOf_nil : sitesOf [] = [] := rfl

@[simp] theorem sitesOf_request (r : Request) (t : List Event) :
    sitesOf (.request r :: t) = r.site :: sitesOf t := rfl

@[simp] theorem sitesOf_progress (m : String) (t : List Event) :
    sitesOf (.progress m :: t) = sitesOf t := rfl

@[simp] theorem sitesOf_warn (l : String) (d : JVal) (t : List Event) :
    sitesOf (.warn l d :: t) = sitesOf t := rfl

@[simp] theorem sitesOf_sleep (ms : Nat) (t : List Event) :
    sitesOf (.sleep ms :: t) = sitesOf t := rfl

theorem progressOf_append (t t' : List Event) :
    progressOf (t ++ t') = progressOf t ++ progressOf t' := by
  simp [progressOf]

theorem JVal.truthy_str (s : String) : (JVal.str s).truthy = (s != "") := rfl

theorem JVal.isStr_eq {v : JVal} {s : String} (h : v.isStr s = true) : v = .str s := by
  cases v <;> simp_all [JVal.isStr]

theorem JVal.truthy_of_field_isStr {v : JVal} {key s : String}
    (h : (v.field key).isStr s = true) : v.truthy = true := by
  cases v with
  | obj kv => rfl
  | arr xs => rfl
  | str x =>
    simp only [JVal.field] at h
    split at h <;> simp [JVal.isStr] at h
  | undefined => simp [JVal.field, JVal.isStr] at h
  | null => simp [JVal.field, JVal.isStr] at h
  | bool b => simp [JVal.field, JVal.isStr] at h
  | num n => simp [JVal.field, JVal.isStr] at h

theorem pollLoop_nonTerminal (runs detail : Nat → Fetch) (tok user : JVal) (repo : String)
    (iv : Nat) : ∀ (m remaining attempt : Nat) (runObj : JVal),
    (∀ i, attempt < i → i ≤ attempt + m → nonTerminal (runs i) (detail i) = true) →
    notSucceeded runObj = true →
    ∃ (t : List Event) (v : JVal),
      (pollLoop runs detail tok user repo iv (m + remaining) attempt runObj).outcome
          = (pollLoop runs detail tok user repo iv remaining (attempt + m) v).outcome
        ∧ (pollLoop runs detail tok user repo iv (m + remaining) attempt runObj).trace
          = t ++ (pollLoop runs detail tok user repo iv remaining (attempt + m) v).trace
        ∧ (sitesOf t).count .runsList = m
        ∧ (∀ s ∈ sitesOf t, s = .runsList ∨ s = .runDetail)
        ∧ notSucceeded v = true := by
  intro m
  induction m with
  | zero =>
    intro remaining attempt runObj _ hv
    exact ⟨[], runObj, by simp, by simp, by simp [sitesOf, requestsOf],
      by simp [sitesOf, requestsOf], hv⟩
  | succ m ih =>
    intro remaining attempt runObj hall hv
    obtain ⟨t1, v1, ho1, ht1, hs1, hv1⟩ :=
      pollLoop_step_nonTerminal runs detail tok user repo iv (m + remaining) attempt runObj
        (hall (attempt + 1) (by omega) (by omega)) hv
    obtain ⟨t2, v2, ho2, ht2, hc2, hs2, hv2⟩ :=
      ih remaining (attempt + 1) v1 (fun i h1 h2 => hall i (by omega) (by omega)) hv1
    have e1 : m + 1 + remaining = m + remaining + 1 := by omega
    have e2 : attempt + (m + 1) = attempt + 1 + m := by omega
    refine ⟨t1 ++ t2, v2, ?_, ?_, ?_, ?_, hv2⟩
    · rw [e1, e2, ho1, ho2]
    · rw [e1, e2, ht1, ht2, List.append_assoc]
    · rw [sitesOf_append, List.count_append, hc2]
      rcases hs1 with h | h <;> rw [h] <;> simp <;> omega
    · intro s hs
      rw [sitesOf_append, List.mem_append] at hs
      rcases hs with hs | hs
      · rcases hs1 with h | h <;> rw [h] at hs <;> simp at hs <;>
          first | exact hs | exact Or.inl hs
      · exact hs2 s hs

theorem attemptKind_concluded {runs detail : Fetch} {c : JVal}
    (h : attemptKind runs detail = .concluded c) :
    ∃ r j d o, runs = .responds r ∧ r.ok = true ∧ r.json = .ok j ∧ j.nullish = false
      ∧ (latestRun j).truthy = true ∧ detail = .responds d ∧ d.ok = true ∧ d.json = .ok o
      ∧ o.nullish = false ∧ o.field "conclusion" = c := by
  cases runs with
  | fails s => simp [attemptKind] at h
  | responds r =>
    cases hok : r.ok with
    | false => simp [attemptKind, hok] at h
    | true =>
      cases hj : r.json with
      | error e => simp [attemptKind, hok, hj] at h
      | ok j =>
        cases hn : j.nullish with
        | true => simp [attemptKind, hok, hj, hn] at h
        | false =>
          cases hl : (latestRun j).truthy with
          | false => simp [attemptKind, hok, hj, hn, hl] at h
          | true =>
            cases detail with
            | fails s => simp [attemptKind, hok, hj, hn, hl] at h
            | responds d =>
              cases hdok : d.ok with
              | false => simp [attemptKind, hok, hj, hn, hl, hdok] at h
              | true =>
                cases hdj : d.json with
                | error e => simp [attemptKind, hok, hj, hn, hl, hdok, hdj] at h
                | ok o =>
                  cases hon : o.nullish with
                  | true => simp [attemptKind, hok, hj, hn, hl, hdok, hdj, hon] at h
                  | false =>
                    simp [attemptKind, hok, hj, hn, hl, hdok, hdj, hon] at h
                    exact ⟨r, j, d, o, rfl, hok, hj, hn, hl, rfl, hdok, hdj, hon, h⟩

theorem pollLoop_step_success (runs detail : Nat → Fetch) (tok user : JVal) (repo : String)
    (iv remaining attempt : Nat) (runObj : JVal)
    (h : concludes (runs (attempt + 1)) (detail (attempt + 1)) "success" = true) :
    ∃ o, (pollLoop runs detail tok user repo iv (remaining + 1) attempt runObj).outcome = .ok o
      ∧ o.truthy = true ∧ (o.field "conclusion").isStr "success" = true
      ∧ sitesOf (pollLoop runs detail tok user repo iv (remaining + 1) attempt runObj).trace
          = [.runsList, .runDetail] := by
  unfold concludes at h
  cases hk : attemptKind (runs (attempt + 1)) (detail (attempt + 1)) with
  | concluded c =>
    rw [hk] at h
    simp only at h
    obtain ⟨r, j, d, o, hr, hok, hj, hn, hl, hd, hdok, hdj, hon, hc⟩ := attemptKind_concluded hk
    subst hc
    have hw : (j.field "workflow_runs").truthy = true := by
      cases hw : (j.field "workflow_runs").truthy with
      | true => rfl
      | false => simp [latestRun, JVal.andThen, hw] at hl
    have hl' : (j.field "workflow_runs").first.truthy = true := by
      simpa [latestRun, JVal.andThen, hw] using hl
    refine ⟨o, ?_, JVal.truthy_of_field_isStr h, h, ?_⟩
    · simp [pollLoop, hr, hok, outcome_parse_ok hj, outcome_prop hn, hw,
        outcome_index0 (JVal.nullish_of_truthy hw), hl',
        outcome_prop (JVal.nullish_of_truthy hl') "id", hd, hdok, outcome_parse_ok hdj,
        outcome_prop hon, h]
    · simp [pollLoop, hr, hok, outcome_parse_ok hj, outcome_prop hn, hw,
        outcome_index0 (JVal.nullish_of_truthy hw), hl',
        outcome_prop (JVal.nullish_of_truthy hl') "id", hd, hdok, outcome_parse_ok hdj,
        outcome_prop hon, h, sitesOf, requestsOf]
  | listNotOk => simp [hk] at h
  | noRun => simp [hk] at h
  | detailNotOk => simp [hk] at h
  | broken => simp [hk] at h

theorem pollLoop_step_failed (runs detail : Nat → Fetch) (tok user : JVal) (repo : String)
    (iv remaining attempt : Nat) (runObj : JVal) (c : String)
    (hc : c = "failure" ∨ c = "cancelled" ∨ c = "timed_out")
    (h : concludes (runs (attempt + 1)) (detail (attempt + 1)) c = true) :
    (pollLoop runs detail tok user repo iv (remaining + 1) attempt runObj).outcome
        = .error (.error ("Workflow finished with conclusion: " ++ c))
      ∧ sitesOf (pollLoop runs detail tok user repo iv (remaining + 1) attempt runObj).trace
          = [.runsList, .runDetail] := by
  unfold concludes at h
  cases hk : attemptKind (runs (attempt + 1)) (detail (attempt + 1)) with
  | concluded v =>
    rw [hk] at h
    simp only at h
    obtain ⟨r, j, d, o, hr, hok, hj, hn, hl, hd, hdok, hdj, hon, hv⟩ := attemptKind_concluded hk
    have hvs := JVal.isStr_eq h
    rw [hvs] at hv
    have hw : (j.field "workflow_runs").truthy = true := by
      cases hw : (j.field "workflow_runs").truthy with
      | true => rfl
      | false => simp [latestRun, JVal.andThen, hw] at hl
    have hl' : (j.field "workflow_runs").first.truthy = true := by
      simpa [latestRun, JVal.andThen, hw] using hl
    rcases hc with rfl | rfl | rfl <;>
    · constructor
      · simp [pollLoop, hr, hok, outcome_parse_ok hj, outcome_prop hn, hw,
          outcome_index0 (JVal.nullish_of_truthy hw), hl',
          outcome_prop (JVal.nullish_of_truthy hl') "id", hd, hdok, outcome_parse_ok hdj,
          outcome_prop hon, hv, JVal.isStr, JVal.truthy_str, JVal.toStr, JVal.orElse]
      · simp [pollLoop, hr, hok, outcome_parse_ok hj, outcome_prop hn, hw,
          outcome_index0 (JVal.nullish_of_truthy hw), hl',
          outcome_prop (JVal.nullish_of_truthy hl') "id", hd, hdok, outcome_parse_ok hdj,
          outcome_prop hon, hv, JVal.isStr, JVal.truthy_str, JVal.toStr, JVal.orElse, sitesOf,
          requestsOf]
  | listNotOk => simp [hk] at h
  | noRun => simp [hk] at h
  | detailNotOk => simp [hk] at h
  | broken => simp [hk] at h

theorem uploadAndBuildFromTemplate_eq (opts : Option Options) (rendered : String) (sim : Sim) :
    uploadAndBuildFromTemplate opts rendered sim
      = (createRepository opts rendered sim.user sim.generate >>= fun c =>
          installWorkflow sim.install (optionsOf opts).githubToken c >>= fun _ =>
          uploadArtifact sim.upload (optionsOf opts).githubToken c >>= fun _ =>
          triggerBuild sim.dispatch (optionsOf opts).githubToken c >>= fun _ =>
          pollAndResolve sim (optionsOf opts).githubToken c) := rfl

theorem checkRun_notSucceeded {v : JVal} (h : notSucceeded v = true) :
    (checkRun v).outcome = .error (.error "Workflow did not complete successfully in time")
      ∧ (checkRun v).trace = [] := by
  cases ht : v.truthy with
  | false => simp [checkRun, ht]
  | true =>
    have hc : (v.field "conclusion").isStr "success" = false := by
      simpa [notSucceeded, ht] using h
    simp [checkRun, ht, outcome_prop (JVal.nullish_of_truthy ht), hc]

theorem checkRun_succeeded {v : JVal} (ht : v.truthy = true)
    (hc : (v.field "conclusion").isStr "success" = true) :
    (checkRun v).outcome = .ok () ∧ sitesOf (checkRun v).trace = [] := by
  simp [checkRun, ht, outcome_prop (JVal.nullish_of_truthy ht), hc, sitesOf, requestsOf]

theorem cleanup_outcome (delete : Fetch) (tok : JVal) (c : Ctx) :
    (cleanup delete tok c).outcome = .ok () := by
  unfold cleanup
  cases ha : c.autoDelete.truthy with
  | false => simp
  | true =>
    have he : (prop (JVal.obj []) "message").outcome
        = .ok ((JVal.obj []).field "message") := @outcome_prop (JVal.obj []) rfl "message"
    cases delete with
    | fails s => simp [Eff.outcome_tryCatch]
    | responds r =>
      cases hok : r.ok with
      | true => simp [Eff.outcome_tryCatch, hok]
      | false =>
        cases hj : r.json with
        | error e => simp [Eff.outcome_tryCatch, hok, hj, he]
        | ok v =>
          cases hn : v.nullish with
          | false => simp [Eff.outcome_tryCatch, hok, hj, outcome_prop hn]
          | true => simp [Eff.outcome_tryCatch, hok, hj, prop, hn]

theorem cleanup_sites (delete : Fetch) (tok : JVal) (c : Ctx) :
    sitesOf (cleanup delete tok c).trace
      = if c.autoDelete.truthy then [.deleteRepo] else [] := by
  unfold cleanup
  cases ha : c.autoDelete.truthy with
  | false => simp [sitesOf, requestsOf]
  | true =>
    have he : (prop (JVal.obj []) "message").outcome
        = .ok ((JVal.obj []).field "message") := @outcome_prop (JVal.obj []) rfl "message"
    cases delete with
    | fails s => simp [Eff.trace_tryCatch, sitesOf, requestsOf]
    | responds r =>
      cases hok : r.ok with
      | true => simp [Eff.trace_tryCatch, hok, sitesOf, requestsOf]
      | false =>
        cases hj : r.json with
        | error e =>
          simp [Eff.trace_tryCatch, hok, hj, he, sitesOf, requestsOf]
        | ok v =>
          cases hn : v.nullish with
          | false => simp [Eff.trace_tryCatch, hok, hj, outcome_prop hn, sitesOf, requestsOf]
          | true => simp [Eff.trace_tryCatch, hok, hj, prop, hn, sitesOf, requestsOf]

theorem resolveRelease_ok {release : Fetch} {jr a : JVal} {rest : List JVal} (delete : Fetch)
    (tok : JVal) (c : Ctx) (hj : release.okJson = some jr)
    (ha : jr.field "assets" = .arr (a :: rest)) (hn : a.nullish = false) :
    (resolveRelease release delete tok c).outcome = .ok (resultOf c jr a)
      ∧ sitesOf (resolveRelease release delete tok c).trace
          = .latestRelease :: (if c.autoDelete.truthy then [.deleteRepo] else []) := by
  obtain ⟨r, rfl, hok, hrj, hjn⟩ := Fetch.okJson_some hj
  have hat : (JVal.arr (a :: rest)).truthy = true := rfl
  have hlen : (prop (JVal.arr (a :: rest)) "length").outcome
      = .ok (.num ((a :: rest).length : Nat)) := @outcome_prop (JVal.arr (a :: rest)) rfl "length"
  have hi : (index0 (JVal.arr (a :: rest))).outcome = .ok a :=
    @outcome_index0 (JVal.arr (a :: rest)) rfl
  have hz : (JVal.num ((rest.length : Int) + 1)).isZero = false := by
    simp [JVal.isZero]
    omega
  constructor
  · simp [resolveRelease, hok, outcome_parse_ok hrj, outcome_prop hjn, ha, hat, hlen, hz, hi,
      outcome_prop hn, cleanup_outcome, resultOf]
  · simp [resolveRelease, hok, outcome_parse_ok hrj, outcome_prop hjn, ha, hat, hlen, hz, hi,
      outcome_prop hn, cleanup_outcome, sitesOf_append, cleanup_sites]

theorem dispatched_iff {opts : Option Options} {sim : Sim} (h : dispatched opts sim = true) :
    uploaded opts sim = true
      ∧ ∃ r, sim.dispatch = .responds r ∧ [204, 201, 202].contains r.status = true := by
  unfold dispatched at h
  rw [Bool.and_eq_true] at h
  refine ⟨h.1, ?_⟩
  cases hd : sim.dispatch with
  | fails s => simp [hd, Fetch.status?] at h
  | responds r => exact ⟨r, rfl, by simpa [hd, Fetch.status?] using h.2⟩

theorem reaches_dispatch {opts : Option Options} {sim : Sim} (rendered : String)
    (h : uploaded opts sim = true) :
    ∃ (jg : JVal) (t0 : List Event),
      sitesOf t0 = [.accountLookup, .generate, .workflowInstall, .upload]
      ∧ (uploadAndBuildFromTemplate opts rendered sim).outcome
          = (triggerBuild sim.dispatch (optionsOf opts).githubToken (ctxOf opts rendered jg)
              >>= fun _ => pollAndResolve sim (optionsOf opts).githubToken
                (ctxOf opts rendered jg)).outcome
      ∧ (uploadAndBuildFromTemplate opts rendered sim).trace
          = t0 ++ (triggerBuild sim.dispatch (optionsOf opts).githubToken (ctxOf opts rendered jg)
              >>= fun _ => pollAndResolve sim (optionsOf opts).githubToken
                (ctxOf opts rendered jg)).trace := by
  unfold uploaded repositoryCreated at h
  simp only [Bool.and_eq_true, Option.isSome_iff_exists] at h
  obtain ⟨⟨⟨hin, ⟨ju, hu⟩, ⟨jg, hg⟩⟩, hi⟩, hup⟩ := h
  obtain ⟨_, _, _, bytes, hb⟩ := inputsOk_iff hin
  obtain ⟨hc1, hc2⟩ := createRepository_ok rendered hin hu hg
  cases hins : sim.install with
  | fails s => simp [hins, Fetch.answered] at hi
  | responds ri =>
    obtain ⟨hi1, hi2⟩ := installWorkflow_responds ri (optionsOf opts).githubToken
      (ctxOf opts rendered jg)
    obtain ⟨hu1, hu2⟩ := @uploadArtifact_ok sim.upload (ctxOf opts rendered jg) bytes
      (optionsOf opts).githubToken hb hup
    refine ⟨jg, (createRepository opts rendered sim.user sim.generate).trace
      ++ (installWorkflow (.responds ri) (optionsOf opts).githubToken
          (ctxOf opts rendered jg)).trace
      ++ (uploadArtifact sim.upload (optionsOf opts).githubToken (ctxOf opts rendered jg)).trace,
      ?_, ?_, ?_⟩
    · rw [sitesOf_append, sitesOf_append, hc2, hi2, hu2]
      rfl
    · rw [uploadAndBuildFromTemplate_eq, Eff.outcome_bind_ok hc1, hins,
        Eff.outcome_bind_ok hi1, Eff.outcome_bind_ok hu1]
    · rw [uploadAndBuildFromTemplate_eq, Eff.trace_bind_ok hc1, hins, Eff.trace_bind_ok hi1,
        Eff.trace_bind_ok hu1]
      simp only [List.append_assoc]

theorem reaches_poller {opts : Option Options} {sim : Sim} (rendered : String)
    (h : dispatched opts sim = true) :
    ∃ (jg : JVal) (t0 : List Event),
      sitesOf t0 = [.accountLookup, .generate, .workflowInstall, .upload, .dispatch]
      ∧ "已触发 GitHub Actions workflow，开始轮询执行状态..." ∈ progressOf t0
      ∧ (uploadAndBuildFromTemplate opts rendered sim).outcome
          = (pollAndResolve sim (optionsOf opts).githubToken (ctxOf opts rendered jg)).outcome
      ∧ (uploadAndBuildFromTemplate opts rendered sim).trace
          = t0 ++ (pollAndResolve sim (optionsOf opts).githubToken
              (ctxOf opts rendered jg)).trace := by
  obtain ⟨hup, r, hr, hs⟩ := dispatched_iff h
  obtain ⟨jg, t0, hs0, ho, ht⟩ := reaches_dispatch rendered hup
  obtain ⟨hd1, hd2, hd3⟩ := triggerBuild_accepted (optionsOf opts).githubToken
    (ctxOf opts rendered jg) hs
  rw [hr] at ho ht
  refine ⟨jg, t0 ++ (triggerBuild (.responds r) (optionsOf opts).githubToken
    (ctxOf opts rendered jg)).trace, ?_, ?_, ?_, ?_⟩
  · rw [sitesOf_append, hs0, hd2]
    rfl
  · rw [progressOf_append, hd3]
    simp
  · rw [ho, Eff.outcome_bind_ok hd1]
  · rw [ht, Eff.trace_bind_ok hd1, List.append_assoc]

theorem pollLoop_zero (runs detail : Nat → Fetch) (tok user : JVal) (repo : String)
    (iv attempt : Nat) (runObj : JVal) :
    pollLoop runs detail tok user repo iv 0 attempt runObj = pure runObj := by
  simp [pollLoop]

theorem pollAndResolve_eq (sim : Sim) (tok : JVal) (c : Ctx) :
    pollAndResolve sim tok c
      = (pollLoop sim.runs sim.detail tok c.githubUser c.repoName c.pollIntervalMs
          c.pollMaxAttempts 0 .null >>= fun runObj =>
        checkRun runObj >>= fun _ => resolveRelease sim.release sim.delete tok c) := rfl

theorem pollAndResolve_timeout (sim : Sim) (tok : JVal) (c : Ctx)
    (hp : ∀ i, 1 ≤ i → i ≤ c.pollMaxAttempts → nonTerminal (sim.runs i) (sim.detail i) = true) :
    (pollAndResolve sim tok c).outcome
        = .error (.error "Workflow did not complete successfully in time")
      ∧ (sitesOf (pollAndResolve sim tok c).trace).count .runsList = c.pollMaxAttempts
      ∧ ∀ s ∈ sitesOf (pollAndResolve sim tok c).trace, s = .runsList ∨ s = .runDetail := by
  obtain ⟨t, v, ho, ht, hc, hs, hv⟩ :=
    pollLoop_nonTerminal sim.runs sim.detail tok c.githubUser c.repoName c.pollIntervalMs
      c.pollMaxAttempts 0 0 .null (fun i h1 h2 => hp i (by omega) (by omega)) rfl
  rw [Nat.add_zero, pollLoop_zero] at ho ht
  simp only [Eff.outcome_pure, Eff.trace_pure, List.append_nil] at ho ht
  obtain ⟨hc1, hc2⟩ := checkRun_notSucceeded hv
  have ho' := Eff.outcome_bind_error hc1
    (fun _ => resolveRelease sim.release sim.delete tok c)
  have ht' := Eff.trace_bind_error hc1
    (fun _ => resolveRelease sim.release sim.delete tok c)
  rw [pollAndResolve_eq, Eff.outcome_bind_ok ho, Eff.trace_bind_ok ho, ho', ht', ht, hc2,
    List.append_nil]
  exact ⟨rfl, hc, hs⟩

theorem outcome_fetch (out : Fetch) (req : Request) : (fetch out req).outcome = out.result := by
  cases out <;> rfl

theorem Eff.outcome_ite {α : Type} (c : Prop) [Decidable c] (a b : Eff α) :
    (if c then a else b).outcome = if c then a.outcome else b.outcome := by
  split <;> rfl

theorem Eff.trace_ite {α : Type} (c : Prop) [Decidable c] (a b : Eff α) :
    (if c then a else b).trace = if c then a.trace else b.trace := by
  split <;> rfl

theorem progressOf_ite (c : Prop) [Decidable c] (a b : List Event) :
    progressOf (if c then a else b) = if c then progressOf a else progressOf b := by
  split <;> rfl

theorem progressOf_trace_bind {α β : Type} (m : Eff α) (f : α → Eff β) :
    progressOf (m >>= f).trace = progressOf m.trace ++ match m.outcome with
      | .ok a => progressOf (f a).trace
      | .error _ => [] := by
  rw [Eff.trace_bind, progressOf_append]
  cases m.outcome <;> rfl

@[simp] theorem progressOf_nil : progressOf [] = [] := rfl

@[simp] theorem progressOf_request (r : Request) (t : List Event) :
    progressOf (.request r :: t) = progressOf t := rfl

@[simp] theorem progressOf_progress (m : String) (t : List Event) :
    progressOf (.progress m :: t) = m :: progressOf t := rfl

@[simp] theorem progressOf_warn (l : String) (d : JVal) (t : List Event) :
    progressOf (.warn l d :: t) = progressOf t := rfl

@[simp] theorem progressOf_sleep (ms : Nat) (t : List Event) :
    progressOf (.sleep ms :: t) = progressOf t := rfl

theorem progressOf_trace_tryCatch {α : Type} (m : Eff α) (h : Thrown → Eff α) :
    progressOf (Eff.tryCatch m h).trace = progressOf m.trace ++ match m.outcome with
      | .ok _ => []
      | .error e => progressOf (h e).trace := by
  rw [Eff.trace_tryCatch, progressOf_append]
  cases m.outcome <;> rfl

theorem createRepository_token_free (o : Options) (rendered : String) (user generate : Fetch)
    (t1 t2 : JVal) (h1 : t1.truthy = true) (h2 : t2.truthy = true) :
    (createRepository (some { o with githubToken := t1 }) rendered user generate).outcome
        = (createRepository (some { o with githubToken := t2 }) rendered user generate).outcome
      ∧ progressOf (createRepository (some { o with githubToken := t1 }) rendered user
          generate).trace
        = progressOf (createRepository (some { o with githubToken := t2 }) rendered user
          generate).trace := by
  constructor
  · simp [createRepository, h1, h2, outcome_fetch, Eff.outcome_ite, -outcome_fetch_responds,
      -outcome_fetch_fails]
  · simp [createRepository, h1, h2, outcome_fetch, Eff.outcome_ite, Eff.trace_ite,
      progressOf_ite, progressOf_trace_bind,
      -Eff.trace_bind, -outcome_fetch_responds, -outcome_fetch_fails]

theorem btoa_workflowContent_eq : btoa workflowContent
    = some (String.mk (b64encode (workflowContent.toList.map Char.toNat))) := by
  rw [btoa, if_pos btoa_workflowContent]

theorem installWorkflow_token_free (install : Fetch) (c : Ctx) (t1 t2 : JVal) :
    (installWorkflow install t1 c).outcome = (installWorkflow install t2 c).outcome
      ∧ progressOf (installWorkflow install t1 c).trace
        = progressOf (installWorkflow install t2 c).trace := by
  constructor
  · simp [installWorkflow, btoa_workflowContent_eq, outcome_fetch, Eff.outcome_ite,
      -outcome_fetch_responds, -outcome_fetch_fails]
  · simp [installWorkflow, btoa_workflowContent_eq, outcome_fetch, Eff.outcome_ite,
      Eff.trace_ite, progressOf_ite, progressOf_trace_bind, -Eff.trace_bind,
      -outcome_fetch_responds, -outcome_fetch_fails]

theorem uploadArtifact_token_free (upload : Fetch) (c : Ctx) (t1 t2 : JVal) :
    (uploadArtifact upload t1 c).outcome = (uploadArtifact upload t2 c).outcome
      ∧ progressOf (uploadArtifact upload t1 c).trace
        = progressOf (uploadArtifact upload t2 c).trace := by
  cases hb : c.blob with
  | value v =>
    constructor
    · simp [uploadArtifact, hb]
    · simp [uploadArtifact, hb, progressOf_trace_bind, -Eff.trace_bind]
  | blob bytes =>
    constructor
    · simp [uploadArtifact, hb, binaryString_eq_fromCharCode, btoa_fromCharCode, outcome_fetch,
        Eff.outcome_ite, -outcome_fetch_responds, -outcome_fetch_fails]
    · simp [uploadArtifact, hb, binaryString_eq_fromCharCode, btoa_fromCharCode, outcome_fetch,
        Eff.outcome_ite, Eff.trace_ite, progressOf_ite, progressOf_trace_bind, -Eff.trace_bind,
        -outcome_fetch_responds, -outcome_fetch_fails]

theorem triggerBuild_token_free (dispatch : Fetch) (c : Ctx) (t1 t2 : JVal) :
    (triggerBuild dispatch t1 c).outcome = (triggerBuild dispatch t2 c).outcome
      ∧ progressOf (triggerBuild dispatch t1 c).trace
        = progressOf (triggerBuild dispatch t2 c).trace := by
  constructor
  · simp [triggerBuild, outcome_fetch, Eff.outcome_ite, -outcome_fetch_responds,
      -outcome_fetch_fails]
  · simp [triggerBuild, outcome_fetch, Eff.outcome_ite, Eff.trace_ite, progressOf_ite,
      progressOf_trace_bind, -Eff.trace_bind, -outcome_fetch_responds, -outcome_fetch_fails]

theorem pollLoop_token_free (runs detail : Nat → Fetch) (user : JVal) (repo : String) (iv : Nat)
    (t1 t2 : JVal) : ∀ (remaining attempt : Nat) (runObj : JVal),
    (pollLoop runs detail t1 user repo iv remaining attempt runObj).outcome
        = (pollLoop runs detail t2 user repo iv remaining attempt runObj).outcome
      ∧ progressOf (pollLoop runs detail t1 user repo iv remaining attempt runObj).trace
        = progressOf (pollLoop runs detail t2 user repo iv remaining attempt runObj).trace := by
  intro remaining
  induction remaining with
  | zero => intro attempt runObj; simp [pollLoop]
  | succ n ih =>
    intro attempt runObj
    constructor
    · simp [pollLoop, outcome_fetch, Eff.outcome_ite, fun a v => (ih a v).1,
        -outcome_fetch_responds, -outcome_fetch_fails]
    · simp [pollLoop, outcome_fetch, Eff.outcome_ite, Eff.trace_ite, progressOf_ite,
        progressOf_trace_bind, fun a v => (ih a v).2, -Eff.trace_bind,
        -outcome_fetch_responds, -outcome_fetch_fails]

theorem cleanup_token_free (delete : Fetch) (c : Ctx) (t1 t2 : JVal) :
    progressOf (cleanup delete t1 c).trace = progressOf (cleanup delete t2 c).trace := by
  simp [cleanup, outcome_fetch, Eff.outcome_ite, Eff.trace_ite, progressOf_ite,
    progressOf_trace_bind, progressOf_trace_tryCatch, -Eff.trace_bind,
    -outcome_fetch_responds, -outcome_fetch_fails]

theorem resolveRelease_token_free (release delete : Fetch) (c : Ctx) (t1 t2 : JVal) :
    (resolveRelease release delete t1 c).outcome = (resolveRelease release delete t2 c).outcome
      ∧ progressOf (resolveRelease release delete t1 c).trace
        = progressOf (resolveRelease release delete t2 c).trace := by
  constructor
  · simp [resolveRelease, outcome_fetch, Eff.outcome_ite, cleanup_outcome,
      -outcome_fetch_responds, -outcome_fetch_fails]
  · simp [resolveRelease, outcome_fetch, Eff.outcome_ite, Eff.trace_ite, progressOf_ite,
      progressOf_trace_bind, cleanup_outcome, cleanup_token_free delete c t1 t2,
      -Eff.trace_bind, -outcome_fetch_responds, -outcome_fetch_fails]

theorem pollLoop_until (runs detail : Nat → Fetch) (tok user : JVal) (repo : String)
    (iv n k : Nat) (hk1 : 1 ≤ k) (hk2 : k ≤ n)
    (hp : ∀ i, 1 ≤ i → i < k → nonTerminal (runs i) (detail i) = true) :
    ∃ (t : List Event) (v : JVal),
      (pollLoop runs detail tok user repo iv n 0 .null).outcome
          = (pollLoop runs detail tok user repo iv (n - k + 1) (k - 1) v).outcome
        ∧ (pollLoop runs detail tok user repo iv n 0 .null).trace
          = t ++ (pollLoop runs detail tok user repo iv (n - k + 1) (k - 1) v).trace
        ∧ (sitesOf t).count .runsList = k - 1
        ∧ (∀ s ∈ sitesOf t, s = .runsList ∨ s = .runDetail) := by
  obtain ⟨t, v, ho, ht, hc, hs, _⟩ :=
    pollLoop_nonTerminal runs detail tok user repo iv (k - 1) (n - k + 1) 0 .null
      (fun i h1 h2 => hp i (by omega) (by omega)) rfl
  have e1 : k - 1 + (n - k + 1) = n := by omega
  have e2 : 0 + (k - 1) = k - 1 := by omega
  rw [e1, e2] at ho ht
  exact ⟨t, v, ho, ht, hc, hs⟩

theorem pollAndResolve_failed (sim : Sim) (tok : JVal) (c : Ctx) (k : Nat) (msg : String)
    (hk1 : 1 ≤ k) (hk2 : k ≤ c.pollMaxAttempts)
    (hc : msg = "failure" ∨ msg = "cancelled" ∨ msg = "timed_out")
    (hp : ∀ i, 1 ≤ i → i < k → nonTerminal (sim.runs i) (sim.detail i) = true)
    (hk : concludes (sim.runs k) (sim.detail k) msg = true) :
    (pollAndResolve sim tok c).outcome
        = .error (.error ("Workflow finished with conclusion: " ++ msg))
      ∧ ∃ pre, sitesOf (pollAndResolve sim tok c).trace = pre ++ [.runsList, .runDetail]
          ∧ pre.count .runsList = k - 1
          ∧ ∀ s ∈ pre, s = .runsList ∨ s = .runDetail := by
  obtain ⟨t, v, ho, ht, hcount, hs⟩ :=
    pollLoop_until sim.runs sim.detail tok c.githubUser c.repoName c.pollIntervalMs
      c.pollMaxAttempts k hk1 hk2 hp
  have e : k - 1 + 1 = k := by omega
  obtain ⟨hf1, hf2⟩ :=
    pollLoop_step_failed sim.runs sim.detail tok c.githubUser c.repoName c.pollIntervalMs
      (c.pollMaxAttempts - k) (k - 1) v msg hc (by rw [e]; exact hk)
  rw [hf1] at ho
  rw [pollAndResolve_eq, Eff.outcome_bind_error ho, Eff.trace_bind_error ho, ht,
    sitesOf_append, hf2]
  exact ⟨rfl, sitesOf t, rfl, hcount, hs⟩

theorem pollAndResolve_success (sim : Sim) (tok : JVal) (c : Ctx) (k : Nat)
    {jr a : JVal} {rest : List JVal}
    (hk1 : 1 ≤ k) (hk2 : k ≤ c.pollMaxAttempts)
    (hp : ∀ i, 1 ≤ i → i < k → nonTerminal (sim.runs i) (sim.detail i) = true)
    (hk : concludes (sim.runs k) (sim.detail k) "success" = true)
    (hj : sim.release.okJson = some jr) (ha : jr.field "assets" = .arr (a :: rest))
    (hn : a.nullish = false) :
    (pollAndResolve sim tok c).outcome = .ok (resultOf c jr a)
      ∧ ∃ pre, sitesOf (pollAndResolve sim tok c).trace
            = pre ++ [.runsList, .runDetail, .latestRelease]
              ++ (if c.autoDelete.truthy then [.deleteRepo] else [])
          ∧ pre.count .runsList = k - 1
          ∧ ∀ s ∈ pre, s = .runsList ∨ s = .runDetail := by
  obtain ⟨t, v, ho, ht, hcount, hs⟩ :=
    pollLoop_until sim.runs sim.detail tok c.githubUser c.repoName c.pollIntervalMs
      c.pollMaxAttempts k hk1 hk2 hp
  have e : k - 1 + 1 = k := by omega
  obtain ⟨o, hs1, hs2, hs3, hs4⟩ :=
    pollLoop_step_success sim.runs sim.detail tok c.githubUser c.repoName c.pollIntervalMs
      (c.pollMaxAttempts - k) (k - 1) v (by rw [e]; exact hk)
  rw [hs1] at ho
  obtain ⟨hc1, hc2⟩ := checkRun_succeeded hs2 hs3
  obtain ⟨hr1, hr2⟩ := resolveRelease_ok sim.delete tok c hj ha hn
  rw [pollAndResolve_eq, Eff.outcome_bind_ok ho, Eff.trace_bind_ok ho,
    Eff.outcome_bind_ok hc1, Eff.trace_bind_ok hc1, ht, sitesOf_append, sitesOf_append,
    sitesOf_append, hs4, hc2, hr2]
  exact ⟨hr1, sitesOf t, by simp, hcount, hs⟩

theorem not_mem_of_poll_sites {l : List Site} {x : Site}
    (h : ∀ s ∈ l, s = .runsList ∨ s = .runDetail) (h1 : x ≠ .runsList) (h2 : x ≠ .runDetail) :
    x ∉ l := by
  intro hx
  rcases h x hx with h | h
  · exact h1 h
  · exact h2 h

theorem run_token_free (o : Options) (rendered : String) (sim : Sim) (t1 t2 : JVal)
    (h1 : t1.truthy = true) (h2 : t2.truthy = true) :
    (uploadAndBuildFromTemplate (some { o with githubToken := t1 }) rendered sim).outcome
        = (uploadAndBuildFromTemplate (some { o with githubToken := t2 }) rendered sim).outcome
      ∧ progressOf (uploadAndBuildFromTemplate (some { o with githubToken := t1 }) rendered
          sim).trace
        = progressOf (uploadAndBuildFromTemplate (some { o with githubToken := t2 }) rendered
          sim).trace := by
  have hc := createRepository_token_free o rendered sim.user sim.generate t1 t2 h1 h2
  constructor
  · simp only [uploadAndBuildFromTemplate_eq, pollAndResolve_eq, optionsOf, Option.getD_some,
      Eff.outcome_bind, hc.1,
      fun c => (installWorkflow_token_free sim.install c t1 t2).1,
      fun c => (uploadArtifact_token_free sim.upload c t1 t2).1,
      fun c => (triggerBuild_token_free sim.dispatch c t1 t2).1,
      fun u r iv n a v => (pollLoop_token_free sim.runs sim.detail u r iv t1 t2 n a v).1,
      fun c => (resolveRelease_token_free sim.release sim.delete c t1 t2).1]
  · simp only [uploadAndBuildFromTemplate_eq, pollAndResolve_eq, optionsOf, Option.getD_some,
      Eff.outcome_bind, progressOf_trace_bind, hc.1, hc.2,
      fun c => (installWorkflow_token_free sim.install c t1 t2).1,
      fun c => (uploadArtifact_token_free sim.upload c t1 t2).1,
      fun c => (triggerBuild_token_free sim.dispatch c t1 t2).1,
      fun u r iv n a v => (pollLoop_token_free sim.runs sim.detail u r iv t1 t2 n a v).1,
      fun c => (resolveRelease_token_free sim.release sim.delete c t1 t2).1,
      fun c => (installWorkflow_token_free sim.install c t1 t2).2,
      fun c => (uploadArtifact_token_free sim.upload c t1 t2).2,
      fun c => (triggerBuild_token_free sim.dispatch c t1 t2).2,
      fun u r iv n a v => (pollLoop_token_free sim.runs sim.detail u r iv t1 t2 n a v).2,
      fun c => (resolveRelease_token_free sim.release sim.delete c t1 t2).2]

namespace Eff

variable {α β : Type}

theorem allRequests_bind (P : Request → Prop) (m : Eff α) (f : α → Eff β) :
    AllRequests P (m >>= f)
      ↔ AllRequests P m ∧ ∀ a, m.outcome = .ok a → AllRequests P (f a) := by
  unfold AllRequests
  rw [trace_bind, requestsOf_append]
  cases h : m.outcome with
  | ok a =>
    simp only [List.mem_append, Except.ok.injEq]
    constructor
    · intro H
      exact ⟨fun r hr => H r (Or.inl hr), fun b hb r hr => H r (Or.inr (hb ▸ hr))⟩
    · rintro ⟨H1, H2⟩ r (hr | hr)
      · exact H1 r hr
      · exact H2 a rfl r hr
  | error e =>
    simp [requestsOf]

theorem allRequests_pure (P : Request → Prop) (a : α) : AllRequests P (pure a : Eff α) := by
  simp [AllRequests, requestsOf]

theorem allRequests_throw (P : Request → Prop) (e : Thrown) :
    AllRequests P (Eff.throw e : Eff α) := by
  simp [AllRequests, requestsOf]

theorem allRequests_emit_progress (P : Request → Prop) (msg : String) :
    AllRequests P (progress msg) := by
  simp [AllRequests, requestsOf]

theorem allRequests_emit_warn (P : Request → Prop) (l : String) (d : JVal) :
    AllRequests P (consoleWarn l d) := by
  simp [AllRequests, requestsOf]

theorem allRequests_emit_sleep (P : Request → Prop) (ms : Nat) :
    AllRequests P (Eff.emit (.sleep ms)) := by
  simp [AllRequests, requestsOf]

theorem allRequests_fetch (P : Request → Prop) (out : Fetch) (req : Request) :
    AllRequests P (fetch out req) ↔ P req := by
  simp [AllRequests, requestsOf]

theorem allRequests_parse (P : Request → Prop) (r : Response) : AllRequests P r.parse := by
  simp [AllRequests, requestsOf]

theorem allRequests_prop (P : Request → Prop) (v : JVal) (key : String) :
    AllRequests P (prop v key) := by
  simp [AllRequests, requestsOf]

theorem allRequests_index0 (P : Request → Prop) (v : JVal) : AllRequests P (index0 v) := by
  simp [AllRequests, requestsOf]

theorem allRequests_ite (P : Request → Prop) (c : Prop) [Decidable c] (a b : Eff α) :
    AllRequests P (if c then a else b) ↔ (c → AllRequests P a) ∧ (¬c → AllRequests P b) := by
  split <;> simp [*]

theorem allRequests_tryCatch (P : Request → Prop) (m : Eff α) (h : Thrown → Eff α) :
    AllRequests P (Eff.tryCatch m h)
      ↔ AllRequests P m ∧ ∀ e, m.outcome = .error e → AllRequests P (h e) := by
  unfold AllRequests
  rw [trace_tryCatch, requestsOf_append]
  cases hm : m.outcome with
  | ok a => simp [requestsOf]
  | error e =>
    simp only [List.mem_append, Except.error.injEq]
    constructor
    · intro H
      exact ⟨fun r hr => H r (Or.inl hr), fun b hb r hr => H r (Or.inr (hb ▸ hr))⟩
    · rintro ⟨H1, H2⟩ r (hr | hr)
      · exact H1 r hr
      · exact H2 e rfl r hr

theorem returns_bind (Q : β → Prop) (m : Eff α) (f : α → Eff β) :
    Returns Q (m >>= f) ↔ ∀ a, m.outcome = .ok a → Returns Q (f a) := by
  unfold Returns
  rw [outcome_bind]
  cases h : m.outcome with
  | ok a =>
    simp only [Except.ok.injEq]
    constructor
    · intro H b hb
      exact hb ▸ H
    · intro H
      exact H a rfl
  | error e => simp

theorem returns_pure (Q : α → Prop) (a : α) : Returns Q (pure a : Eff α) ↔ Q a := by
  simp [Returns]

theorem returns_throw (Q : α → Prop) (e : Thrown) : Returns Q (Eff.throw e : Eff α) := by
  simp [Returns]

theorem returns_ite (Q : α → Prop) (c : Prop) [Decidable c] (a b : Eff α) :
    Returns Q (if c then a else b) ↔ (c → Returns Q a) ∧ (¬c → Returns Q b) := by
  split <;> simp [*]

end Eff

theorem createRepository_returns (opts : Option Options) (rendered : String)
    (user generate : Fetch) :
    Eff.Returns (fun c => c.autoDelete = (optionsOf opts).autoDelete.withDefault (.bool false))
      (createRepository opts rendered user generate) := by
  simp [createRepository, Eff.returns_bind, Eff.returns_pure, Eff.returns_throw,
    Eff.returns_ite, optionsOf]

theorem createRepository_requests (ad : Bool) (opts : Option Options) (rendered : String)
    (user generate : Fetch) :
    Eff.AllRequests (Request.wellFormed (optionsOf opts).githubToken ad)
      (createRepository opts rendered user generate) := by
  simp [createRepository, Eff.allRequests_bind, Eff.allRequests_pure, Eff.allRequests_throw,
    Eff.allRequests_ite, Eff.allRequests_fetch, Eff.allRequests_emit_progress,
    Eff.allRequests_parse, Eff.allRequests_prop, Request.wellFormed, Request.authorized,
    Request.notDelete, authHeaders, jsonHeaders, optionsOf]
  intros; decide

theorem installWorkflow_requests (ad : Bool) (install : Fetch) (tok : JVal) (c : Ctx) :
    Eff.AllRequests (Request.wellFormed tok ad) (installWorkflow install tok c) := by
  simp [installWorkflow, btoa_workflowContent_eq, Eff.allRequests_bind, Eff.allRequests_pure,
    Eff.allRequests_ite, Eff.allRequests_fetch, Eff.allRequests_emit_progress,
    Eff.allRequests_emit_warn, Request.wellFormed, Request.authorized, Request.notDelete,
    jsonHeaders]

theorem uploadArtifact_requests (ad : Bool) (upload : Fetch) (tok : JVal) (c : Ctx) :
    Eff.AllRequests (Request.wellFormed tok ad) (uploadArtifact upload tok c) := by
  cases hb : c.blob with
  | value v =>
    simp [uploadArtifact, hb, Eff.allRequests_bind, Eff.allRequests_throw,
      Eff.allRequests_emit_progress]
  | blob bytes =>
    simp [uploadArtifact, hb, binaryString_eq_fromCharCode, btoa_fromCharCode,
      Eff.allRequests_bind, Eff.allRequests_pure, Eff.allRequests_throw, Eff.allRequests_ite,
      Eff.allRequests_fetch, Eff.allRequests_emit_progress, Request.wellFormed,
      Request.authorized, Request.notDelete, jsonHeaders]

theorem triggerBuild_requests (ad : Bool) (dispatch : Fetch) (tok : JVal) (c : Ctx) :
    Eff.AllRequests (Request.wellFormed tok ad) (triggerBuild dispatch tok c) := by
  simp [triggerBuild, Eff.allRequests_bind, Eff.allRequests_throw, Eff.allRequests_ite,
    Eff.allRequests_fetch, Eff.allRequests_emit_progress, Request.wellFormed,
    Request.authorized, Request.notDelete, jsonHeaders]

theorem pollLoop_requests (ad : Bool) (runs detail : Nat → Fetch) (tok user : JVal)
    (repo : String) (iv : Nat) : ∀ (remaining attempt : Nat) (runObj : JVal),
    Eff.AllRequests (Request.wellFormed tok ad)
      (pollLoop runs detail tok user repo iv remaining attempt runObj) := by
  intro remaining
  induction remaining with
  | zero => intro attempt runObj; simp [pollLoop, Eff.allRequests_pure]
  | succ n ih =>
    intro attempt runObj
    simp [pollLoop, ih, Eff.allRequests_bind, Eff.allRequests_pure, Eff.allRequests_throw,
      Eff.allRequests_ite, Eff.allRequests_fetch, Eff.allRequests_emit_progress,
      Eff.allRequests_emit_sleep, Eff.allRequests_parse, Eff.allRequests_prop,
      Eff.allRequests_index0, Request.wellFormed, Request.authorized, Request.notDelete,
      authHeaders]
    have hne : ¬ ("GET" : String) = "DELETE" := by decide
    exact ⟨fun _ => hne, fun _ _ _ _ _ _ _ =>
      ⟨fun _ _ _ _ _ _ _ => hne, fun h1 h2 => by rw [h1] at h2; cases h2⟩⟩

theorem checkRun_requests (P : Request → Prop) (runObj : JVal) :
    Eff.AllRequests P (checkRun runObj) := by
  simp [checkRun, Eff.allRequests_bind, Eff.allRequests_pure, Eff.allRequests_throw,
    Eff.allRequests_ite, Eff.allRequests_emit_progress, Eff.allRequests_prop]

theorem cleanup_requests (delete : Fetch) (tok : JVal) (c : Ctx) :
    Eff.AllRequests (Request.wellFormed tok c.autoDelete.truthy) (cleanup delete tok c) := by
  cases ha : c.autoDelete.truthy <;>
  simp [cleanup, ha, Eff.allRequests_bind, Eff.allRequests_pure, Eff.allRequests_ite,
    Eff.allRequests_fetch, Eff.allRequests_emit_progress, Eff.allRequests_emit_warn,
    Eff.allRequests_prop, Eff.allRequests_tryCatch, Request.wellFormed, Request.authorized,
    authHeaders]

theorem resolveRelease_requests (release delete : Fetch) (tok : JVal) (c : Ctx) :
    Eff.AllRequests (Request.wellFormed tok c.autoDelete.truthy)
      (resolveRelease release delete tok c) := by
  simp [resolveRelease, cleanup_requests, Eff.allRequests_bind, Eff.allRequests_pure,
    Eff.allRequests_throw, Eff.allRequests_ite, Eff.allRequests_fetch,
    Eff.allRequests_emit_progress, Eff.allRequests_parse, Eff.allRequests_prop,
    Eff.allRequests_index0, Request.wellFormed, Request.authorized, Request.notDelete,
    authHeaders]
  intros; decide

theorem run_requests (opts : Option Options) (rendered : String) (sim : Sim) :
    Eff.AllRequests
      (Request.wellFormed (optionsOf opts).githubToken
        ((optionsOf opts).autoDelete.withDefault (.bool false)).truthy)
      (uploadAndBuildFromTemplate opts rendered sim) := by
  rw [uploadAndBuildFromTemplate_eq, Eff.allRequests_bind]
  refine ⟨createRepository_requests _ opts rendered sim.user sim.generate, fun c hc => ?_⟩
  have hauto := createRepository_returns opts rendered sim.user sim.generate c hc
  simp only at hauto
  rw [← hauto]
  simp only [pollAndResolve_eq, Eff.allRequests_bind]
  exact ⟨installWorkflow_requests _ _ _ _, fun _ _ =>
    ⟨uploadArtifact_requests _ _ _ _, fun _ _ =>
      ⟨triggerBuild_requests _ _ _ _, fun _ _ =>
        ⟨pollLoop_requests _ _ _ _ _ _ _ _ _ _, fun v _ =>
          ⟨checkRun_requests _ v, fun _ _ => resolveRelease_requests _ _ _ c⟩⟩⟩⟩⟩

theorem requestsOf_trace_bind {α β : Type} (m : Eff α) (f : α → Eff β) :
    requestsOf (m >>= f).trace = requestsOf m.trace ++ match m.outcome with
      | .ok a => requestsOf (f a).trace
      | .error _ => [] := by
  rw [Eff.trace_bind, requestsOf_append]
  cases m.outcome <;> rfl

theorem installWorkflow_requests_eq (r r' : Response) (tok : JVal) (c : Ctx) :
    requestsOf (installWorkflow (.responds r) tok c).trace
      = requestsOf (installWorkflow (.responds r') tok c).trace := by
  cases h : r.ok <;> cases h' : r'.ok <;>
    simp [installWorkflow, btoa_workflowContent_eq, h, h', requestsOf]

theorem run_install_irrelevant (opts : Option Options) (rendered : String) (sim : Sim)
    (r r' : Response) :
    (uploadAndBuildFromTemplate opts rendered { sim with install := .responds r }).outcome
        = (uploadAndBuildFromTemplate opts rendered { sim with install := .responds r' }).outcome
      ∧ requestsOf (uploadAndBuildFromTemplate opts rendered
          { sim with install := .responds r }).trace
        = requestsOf (uploadAndBuildFromTemplate opts rendered
          { sim with install := .responds r' }).trace := by
  have ho : ∀ (x : Response) (c : Ctx),
      (installWorkflow (.responds x) (optionsOf opts).githubToken c).outcome = .ok () :=
    fun x c => (installWorkflow_responds x _ c).1
  constructor
  · simp only [uploadAndBuildFromTemplate_eq, pollAndResolve_eq, Eff.outcome_bind, ho]
  · simp only [uploadAndBuildFromTemplate_eq, pollAndResolve_eq, Eff.outcome_bind,
      requestsOf_trace_bind, ho,
      installWorkflow_requests_eq r r' (optionsOf opts).githubToken]

theorem uploadArtifact_sites {c : Ctx} {bytes : List Byte} (upload : Fetch) (tok : JVal)
    (hb : c.blob = .blob bytes) :
    sitesOf (uploadArtifact upload tok c).trace = [.upload] := by
  cases upload with
  | fails s =>
    simp [uploadArtifact, hb, binaryString_eq_fromCharCode, btoa_fromCharCode]
  | responds x =>
    cases hx : x.ok <;>
      simp [uploadArtifact, hb, binaryString_eq_fromCharCode, btoa_fromCharCode, hx]

theorem run_upload_follows_install {opts : Option Options} {sim : Sim} (rendered : String)
    (r : Response) (hin : inputsOk opts = true) (hrepo : repositoryCreated sim = true) :
    ∃ rest, sitesOf (uploadAndBuildFromTemplate opts rendered
        { sim with install := .responds r }).trace
      = [.accountLookup, .generate, .workflowInstall, .upload] ++ rest := by
  unfold repositoryCreated at hrepo
  simp only [Bool.and_eq_true, Option.isSome_iff_exists] at hrepo
  obtain ⟨⟨ju, hu⟩, ⟨jg, hg⟩⟩ := hrepo
  obtain ⟨_, _, _, bytes, hb⟩ := inputsOk_iff hin
  obtain ⟨hc1, hc2⟩ := createRepository_ok rendered hin hu hg
  obtain ⟨hi1, hi2⟩ := installWorkflow_responds r (optionsOf opts).githubToken
    (ctxOf opts rendered jg)
  have hu2 := uploadArtifact_sites (c := ctxOf opts rendered jg) sim.upload
    (optionsOf opts).githubToken hb
  rw [uploadAndBuildFromTemplate_eq]
  simp only []
  rw [Eff.trace_bind_ok hc1, Eff.trace_bind_ok hi1, Eff.trace_bind, sitesOf_append,
    sitesOf_append, sitesOf_append, hc2, hi2, hu2]
  exact ⟨_, rfl⟩

theorem resolveRelease_delete_free (release d d' : Fetch) (tok : JVal) (c : Ctx) :
    (resolveRelease release d tok c).outcome = (resolveRelease release d' tok c).outcome := by
  simp [resolveRelease, outcome_fetch, Eff.outcome_ite, cleanup_outcome,
    -outcome_fetch_responds, -outcome_fetch_fails]

theorem run_delete_irrelevant (opts : Option Options) (rendered : String) (sim : Sim)
    (d : Fetch) :
    (uploadAndBuildFromTemplate opts rendered { sim with delete := d }).outcome
      = (uploadAndBuildFromTemplate opts rendered sim).outcome := by
  simp only [uploadAndBuildFromTemplate_eq, pollAndResolve_eq, Eff.outcome_bind,
    resolveRelease_delete_free sim.release d sim.delete]

theorem run_success {opts : Option Options} {sim : Sim} (rendered : String) (k : Nat)
    {jr a : JVal} {rest : List JVal} (hd : dispatched opts sim = true)
    (hk1 : 1 ≤ k) (hk2 : k ≤ attemptBudget opts)
    (hp : ∀ i, 1 ≤ i → i < k → nonTerminal (sim.runs i) (sim.detail i) = true)
    (hk : concludes (sim.runs k) (sim.detail k) "success" = true)
    (hj : sim.release.okJson = some jr) (ha : jr.field "assets" = .arr (a :: rest))
    (hn : a.nullish = false) :
    ∃ (jg : JVal) (pre : List Site),
      (uploadAndBuildFromTemplate opts rendered sim).outcome
          = .ok (resultOf (ctxOf opts rendered jg) jr a)
        ∧ sitesOf (uploadAndBuildFromTemplate opts rendered sim).trace
          = [.accountLookup, .generate, .workflowInstall, .upload, .dispatch] ++ pre
            ++ [.runsList, .runDetail, .latestRelease]
            ++ (if ((optionsOf opts).autoDelete.withDefault (.bool false)).truthy
                then [.deleteRepo] else [])
        ∧ pre.count .runsList = k - 1
        ∧ ∀ s ∈ pre, s = .runsList ∨ s = .runDetail := by
  obtain ⟨jg, t0, hs0, _, ho, ht⟩ := reaches_poller rendered hd
  obtain ⟨h1, pre, h2, h3, h4⟩ := pollAndResolve_success sim (optionsOf opts).githubToken
    (ctxOf opts rendered jg) k hk1 hk2 hp hk hj ha hn
  refine ⟨jg, pre, ?_, ?_, h3, h4⟩
  · rw [ho, h1]
  · rw [ht, sitesOf_append, hs0, h2]
    simp [ctxOf]

theorem pollLoop_first (runs detail : Nat → Fetch) (tok user : JVal) (repo : String)
    (iv remaining attempt : Nat) (runObj : JVal) :
    ∃ rest, sitesOf (pollLoop runs detail tok user repo iv (remaining + 1) attempt runObj).trace
      = .runsList :: rest := by
  simp [pollLoop]

theorem run_dispatch_accepted {opts : Option Options} {sim : Sim} {r : Response}
    (rendered : String) (hu : uploaded opts sim = true) (hr : sim.dispatch = .responds r)
    (hs : [204, 201, 202].contains r.status = true) :
    "已触发 GitHub Actions workflow，开始轮询执行状态..."
        ∈ progressOf (uploadAndBuildFromTemplate opts rendered sim).trace
      ∧ (0 < attemptBudget opts → ∃ rest,
          sitesOf (uploadAndBuildFromTemplate opts rendered sim).trace
            = [.accountLookup, .generate, .workflowInstall, .upload, .dispatch, .runsList]
              ++ rest) := by
  have hd : dispatched opts sim = true := by
    simp only [dispatched, hu, hr, Fetch.status?, hs, Bool.and_self]
  obtain ⟨jg, t0, hs0, hmem, _, ht⟩ := reaches_poller rendered hd
  constructor
  · rw [ht, progressOf_append]
    exact List.mem_append_left _ hmem
  · intro hpos
    obtain ⟨n, hn⟩ : ∃ n, attemptBudget opts = n + 1 := ⟨attemptBudget opts - 1, by omega⟩
    have hb : (ctxOf opts rendered jg).pollMaxAttempts = n + 1 := hn
    obtain ⟨rest, hrest⟩ := pollLoop_first sim.runs sim.detail (optionsOf opts).githubToken
      (ctxOf opts rendered jg).githubUser (ctxOf opts rendered jg).repoName
      (ctxOf opts rendered jg).pollIntervalMs n 0 .null
    rw [ht, sitesOf_append, hs0, pollAndResolve_eq, hb, Eff.trace_bind, sitesOf_append, hrest]
    exact ⟨_, rfl⟩

theorem run_dispatch_refused {opts : Option Options} {sim : Sim} {r : Response}
    (rendered : String) (hu : uploaded opts sim = true) (hr : sim.dispatch = .responds r)
    (hs : [204, 201, 202].contains r.status = false) :
    (uploadAndBuildFromTemplate opts rendered sim).outcome
        = .error (.error ("触发 workflow 失败: " ++ toString r.status ++ " " ++ r.text))
      ∧ sitesOf (uploadAndBuildFromTemplate opts rendered sim).trace
        = [.accountLookup, .generate, .workflowInstall, .upload, .dispatch] := by
  obtain ⟨jg, t0, hs0, ho, ht⟩ := reaches_dispatch rendered hu
  obtain ⟨h1, h2⟩ := triggerBuild_refused (optionsOf opts).githubToken (ctxOf opts rendered jg) hs
  rw [hr] at ho ht
  rw [ho, ht, Eff.outcome_bind_error h1, Eff.trace_bind_error h1, sitesOf_append, hs0, h2]
  exact ⟨rfl, rfl⟩

theorem createRepository_missing (opts : Option Options) (rendered : String)
    (user generate : Fetch)
    (h : (optionsOf opts).githubToken.truthy = false ∨ (optionsOf opts).githubUser.truthy = false
      ∨ (optionsOf opts).blob.truthy = false ∨ (optionsOf opts).name.truthy = false) :
    (∃ msg, (createRepository opts rendered user generate).outcome = .error (.error msg))
      ∧ (createRepository opts rendered user generate).trace = [] := by
  unfold optionsOf at h
  cases hu : (opts.getD {}).githubUser.truthy <;> cases ht : (opts.getD {}).githubToken.truthy <;>
    cases hb : (opts.getD {}).blob.truthy <;> cases hn : (opts.getD {}).name.truthy <;>
    simp [createRepository, hu, ht, hb, hn] at h ⊢

theorem uploadArtifact_request {c : Ctx} {b : List Byte} (upload : Fetch) (tok : JVal)
    (hb : c.blob = .blob b) :
    requestsOf (uploadArtifact upload tok c).trace
      = [{ site := .upload, method := "PUT",
           url := apiBase ++ "/repos/" ++ c.githubUser.toStr ++ "/" ++ c.repoName
             ++ "/contents/" ++ encodeURIComponent c.name.toStr,
           headers := jsonHeaders tok,
           body := some (.obj [("message", .str ("Upload " ++ c.name.toStr ++ " via packager")),
             ("content", .str (String.mk (b64encode (b.map Fin.val))))]) }] := by
  cases upload with
  | fails s =>
    simp [uploadArtifact, hb, binaryString_eq_fromCharCode, btoa_fromCharCode, requestsOf]
  | responds x =>
    cases hx : x.ok <;>
      simp [uploadArtifact, hb, binaryString_eq_fromCharCode, btoa_fromCharCode, hx, requestsOf]

theorem triggerBuild_notUpload (dispatch : Fetch) (tok : JVal) (c : Ctx) :
    Eff.AllRequests Request.notUpload (triggerBuild dispatch tok c) := by
  simp [triggerBuild, Eff.allRequests_bind, Eff.allRequests_throw, Eff.allRequests_ite,
    Eff.allRequests_fetch, Eff.allRequests_emit_progress, Request.notUpload]

theorem pollLoop_notUpload (runs detail : Nat → Fetch) (tok user : JVal)
    (repo : String) (iv : Nat) : ∀ (remaining attempt : Nat) (runObj : JVal),
    Eff.AllRequests Request.notUpload
      (pollLoop runs detail tok user repo iv remaining attempt runObj) := by
  intro remaining
  induction remaining with
  | zero => intro attempt runObj; simp [pollLoop, Eff.allRequests_pure]
  | succ n ih =>
    intro attempt runObj
    simp [pollLoop, ih, Eff.allRequests_bind, Eff.allRequests_pure, Eff.allRequests_throw,
      Eff.allRequests_ite, Eff.allRequests_fetch, Eff.allRequests_emit_progress,
      Eff.allRequests_emit_sleep, Eff.allRequests_parse, Eff.allRequests_prop,
      Eff.allRequests_index0, Request.notUpload]

theorem cleanup_notUpload (delete : Fetch) (tok : JVal) (c : Ctx) :
    Eff.AllRequests Request.notUpload (cleanup delete tok c) := by
  cases ha : c.autoDelete.truthy <;>
  simp [cleanup, ha, Eff.allRequests_bind, Eff.allRequests_pure, Eff.allRequests_ite,
    Eff.allRequests_fetch, Eff.allRequests_emit_progress, Eff.allRequests_emit_warn,
    Eff.allRequests_prop, Eff.allRequests_tryCatch, Request.notUpload]

theorem resolveRelease_notUpload (release delete : Fetch) (tok : JVal) (c : Ctx) :
    Eff.AllRequests Request.notUpload (resolveRelease release delete tok c) := by
  simp [resolveRelease, cleanup_notUpload, Eff.allRequests_bind, Eff.allRequests_pure,
    Eff.allRequests_throw, Eff.allRequests_ite, Eff.allRequests_fetch,
    Eff.allRequests_emit_progress, Eff.allRequests_parse, Eff.allRequests_prop,
    Eff.allRequests_index0, Request.notUpload]

theorem afterUpload_notUpload (sim : Sim) (tok : JVal) (c : Ctx) :
    Eff.AllRequests Request.notUpload
      (triggerBuild sim.dispatch tok c >>= fun _ => pollAndResolve sim tok c) := by
  simp only [pollAndResolve_eq, Eff.allRequests_bind]
  exact ⟨triggerBuild_notUpload _ _ _, fun _ _ =>
    ⟨pollLoop_notUpload _ _ _ _ _ _ _ _ _, fun v _ =>
      ⟨checkRun_requests _ v, fun _ _ => resolveRelease_notUpload _ _ _ c⟩⟩⟩

theorem requestsOf_of_sites_two {t : List Event} {s1 s2 : Site}
    (h : sitesOf t = [s1, s2]) :
    ∃ r1 r2, requestsOf t = [r1, r2] ∧ r1.site = s1 ∧ r2.site = s2 := by
  unfold sitesOf at h
  match hr : requestsOf t, h with
  | [r1, r2], h =>
    simp only [List.map_cons, List.map_nil, List.cons.injEq, and_true] at h
    exact ⟨r1, r2, rfl, h.1, h.2⟩

theorem requestsOf_of_sites_one {t : List Event} {s1 : Site}
    (h : sitesOf t = [s1]) : ∃ r1, requestsOf t = [r1] ∧ r1.site = s1 := by
  unfold sitesOf at h
  match hr : requestsOf t, h with
  | [r1], h =>
    simp only [List.map_cons, List.map_nil, List.cons.injEq, and_true] at h
    exact ⟨r1, rfl, h⟩

theorem run_upload_request {opts : Option Options} {sim : Sim} {b : List Byte}
    (rendered : String) (hb : (optionsOf opts).blob = .blob b) (hin : inputsOk opts = true)
    (hrepo : repositoryCreated sim = true) (hi : sim.install.answered = true) :
    ∃ (r1 r2 r3 req : Request) (rest : List Request),
      requestsOf (uploadAndBuildFromTemplate opts rendered sim).trace
          = r1 :: r2 :: r3 :: req :: rest
        ∧ r1.site = .accountLookup ∧ r2.site = .generate ∧ r3.site = .workflowInstall
        ∧ req.site = .upload ∧ req.method = "PUT"
        ∧ req.body = some (.obj
            [("message", .str ("Upload " ++ (optionsOf opts).name.toStr ++ " via packager")),
             ("content", .str (String.mk (b64encode (b.map Fin.val))))])
        ∧ ∀ r ∈ rest, r.site ≠ .upload := by
  unfold repositoryCreated at hrepo
  simp only [Bool.and_eq_true, Option.isSome_iff_exists] at hrepo
  obtain ⟨⟨ju, hu⟩, ⟨jg, hg⟩⟩ := hrepo
  obtain ⟨hc1, hc2⟩ := createRepository_ok rendered hin hu hg
  cases hins : sim.install with
  | fails s => simp [hins, Fetch.answered] at hi
  | responds ri =>
    obtain ⟨hi1, hi2⟩ := installWorkflow_responds ri (optionsOf opts).githubToken
      (ctxOf opts rendered jg)
    obtain ⟨r1, r2, hr12, hs1, hs2⟩ := requestsOf_of_sites_two hc2
    obtain ⟨r3, hr3, hs3⟩ := requestsOf_of_sites_one hi2
    have hcb : (ctxOf opts rendered jg).blob = .blob b := hb
    have hreq := uploadArtifact_request (c := ctxOf opts rendered jg) sim.upload
      (optionsOf opts).githubToken hcb
    have hrest := afterUpload_notUpload sim (optionsOf opts).githubToken (ctxOf opts rendered jg)
    rw [uploadAndBuildFromTemplate_eq, Eff.trace_bind_ok hc1, hins, Eff.trace_bind_ok hi1,
      Eff.trace_bind, requestsOf_append, requestsOf_append, requestsOf_append, hr12, hr3, hreq]
    refine ⟨r1, r2, r3, _, _, rfl, hs1, hs2, hs3, rfl, rfl, rfl, ?_⟩
    intro r hr
    cases ho : (uploadArtifact sim.upload (optionsOf opts).githubToken
        (ctxOf opts rendered jg)).outcome with
    | error e => simp [ho, requestsOf] at hr
    | ok u =>
      simp only [ho] at hr
      exact hrest r hr

/-! ## The claims -/

/-- C1: when stages 1-5 succeed and none of the attempts `1..pollMaxAttempts`
yields a terminal conclusion (each has a runs list that is not ok or names no
run, a run detail that is not ok, or a detail with another conclusion), the
pipeline throws the timeout error, the number of runs-list queries is exactly
`pollMaxAttempts`, and neither the release request nor the delete request is
issued. -/
theorem poll_budget_exhausted (opts : Option Options) (rendered : String) (sim : Sim)
    (hd : dispatched opts sim = true)
    (hp : ∀ i, 1 ≤ i → i ≤ attemptBudget opts →
      nonTerminal (sim.runs i) (sim.detail i) = true) :
    (uploadAndBuildFromTemplate opts rendered sim).outcome
        = .error (.error "Workflow did not complete successfully in time")
      ∧ (sitesOf (uploadAndBuildFromTemplate opts rendered sim).trace).count .runsList
          = attemptBudget opts
      ∧ .latestRelease ∉ sitesOf (uploadAndBuildFromTemplate opts rendered sim).trace
      ∧ .deleteRepo ∉ sitesOf (uploadAndBuildFromTemplate opts rendered sim).trace := by
  obtain ⟨jg, t0, hs0, _, ho, ht⟩ := reaches_poller rendered hd
  obtain ⟨h1, h2, h3⟩ := pollAndResolve_timeout sim (optionsOf opts).githubToken
    (ctxOf opts rendered jg) hp
  rw [ho, ht, sitesOf_append, hs0]
  refine ⟨h1, ?_, ?_, ?_⟩
  · rw [List.count_append, h2]
    simp [ctxOf]
  · rw [List.mem_append, not_or]
    exact ⟨by decide, not_mem_of_poll_sites h3 (by decide) (by decide)⟩
  · rw [List.mem_append, not_or]
    exact ⟨by decide, not_mem_of_poll_sites h3 (by decide) (by decide)⟩

/-- C1, witness: the sample server never concludes; with a budget of three
attempts the run times out after three runs-list queries. -/
theorem poll_budget_exhausted_witness :
    dispatched (some sampleOptions) sampleSim = true
      ∧ attemptBudget (some sampleOptions) = 3
      ∧ (uploadAndBuildFromTemplate (some sampleOptions) "0.4fzyo82mvyr" sampleSim).outcome
          = .error (.error "Workflow did not complete successfully in time")
      ∧ (sitesOf (uploadAndBuildFromTemplate (some sampleOptions) "0.4fzyo82mvyr"
          sampleSim).trace).count .runsList = 3 :=
  have h := poll_budget_exhausted (some sampleOptions) "0.4fzyo82mvyr" sampleSim (by decide)
    (fun _ _ _ => rfl)
  ⟨by decide, by decide, h.1, h.2.1⟩

/-- C2: when stages 1-5 succeed, attempts `1..k-1` yield no terminal
conclusion and the run detail of attempt `k ≤ pollMaxAttempts` has the
conclusion `c` in `failure`, `cancelled`, `timed_out`, the pipeline throws
`Workflow finished with conclusion: c`, exactly `k` runs-list queries have
been issued, the last two requests are the runs-list query and the run-detail
query of attempt `k`, and no release or delete request is issued. -/
theorem poll_stops_on_failure (opts : Option Options) (rendered : String) (sim : Sim)
    (k : Nat) (c : String) (hd : dispatched opts sim = true)
    (hk1 : 1 ≤ k) (hk2 : k ≤ attemptBudget opts)
    (hc : c = "failure" ∨ c = "cancelled" ∨ c = "timed_out")
    (hp : ∀ i, 1 ≤ i → i < k → nonTerminal (sim.runs i) (sim.detail i) = true)
    (hk : concludes (sim.runs k) (sim.detail k) c = true) :
    (uploadAndBuildFromTemplate opts rendered sim).outcome
        = .error (.error ("Workflow finished with conclusion: " ++ c))
      ∧ (sitesOf (uploadAndBuildFromTemplate opts rendered sim).trace).count .runsList = k
      ∧ (∃ pre, sitesOf (uploadAndBuildFromTemplate opts rendered sim).trace
            = pre ++ [.runsList, .runDetail] ∧ pre.count .runsList = k - 1)
      ∧ .latestRelease ∉ sitesOf (uploadAndBuildFromTemplate opts rendered sim).trace
      ∧ .deleteRepo ∉ sitesOf (uploadAndBuildFromTemplate opts rendered sim).trace := by
  obtain ⟨jg, t0, hs0, _, ho, ht⟩ := reaches_poller rendered hd
  obtain ⟨h1, pre, h2, h3, h4⟩ := pollAndResolve_failed sim (optionsOf opts).githubToken
    (ctxOf opts rendered jg) k c hk1 hk2 hc hp hk
  have hnot : ∀ x : Site, x ≠ .runsList → x ≠ .runDetail → x ∉ pre ++ [.runsList, .runDetail] :=
    fun x hx1 hx2 => not_mem_of_poll_sites (fun s hs => by
      rcases List.mem_append.1 hs with h | h
      · exact h4 s h
      · simpa using h) hx1 hx2
  rw [ho, ht, sitesOf_append, hs0, h2]
  refine ⟨h1, ?_, ⟨[.accountLookup, .generate, .workflowInstall, .upload, .dispatch] ++ pre,
    by simp, ?_⟩, ?_, ?_⟩
  · rw [List.count_append, List.count_append, h3]
    simp
    omega
  · rw [List.count_append, h3]
    simp
  · rw [List.mem_append, not_or]
    exact ⟨by decide, hnot _ (by decide) (by decide)⟩
  · rw [List.mem_append, not_or]
    exact ⟨by decide, hnot _ (by decide) (by decide)⟩

/-- C2, witness: the run is cancelled at the second of three attempts. -/
theorem poll_stops_on_failure_witness :
    concludes ((concludingSim "cancelled").runs 2) ((concludingSim "cancelled").detail 2)
        "cancelled" = true
      ∧ (uploadAndBuildFromTemplate (some sampleOptions) "0.4fzyo82mvyr"
          (concludingSim "cancelled")).outcome
          = .error (.error ("Workflow finished with conclusion: " ++ "cancelled"))
      ∧ (sitesOf (uploadAndBuildFromTemplate (some sampleOptions) "0.4fzyo82mvyr"
          (concludingSim "cancelled")).trace).count .runsList = 2 :=
  have h := poll_stops_on_failure (some sampleOptions) "0.4fzyo82mvyr"
    (concludingSim "cancelled") 2 "cancelled" (by decide) (by decide) (by decide)
    (Or.inr (Or.inl rfl))
    (fun i h1 h2 => by
      have hi : i = 1 := by omega
      subst hi
      decide)
    (by decide)
  ⟨by decide, h.1, h.2.1⟩

/-- C3: when stages 1-5 succeed, attempt `k ≤ pollMaxAttempts` is the first
whose run detail has the conclusion `success` (the earlier attempts yield no
terminal conclusion) and the latest-release response is ok with an `assets`
array whose first element is `a`, whatever the further elements `rest`, the
pipeline returns a result with `assetDownloadUrl = a.browser_download_url` and
`assetName = a.name`, after exactly `k` runs-list queries. -/
theorem success_returns_first_asset (opts : Option Options) (rendered : String) (sim : Sim)
    (k : Nat) (jr a : JVal) (rest : List JVal) (hd : dispatched opts sim = true)
    (hk1 : 1 ≤ k) (hk2 : k ≤ attemptBudget opts)
    (hp : ∀ i, 1 ≤ i → i < k → nonTerminal (sim.runs i) (sim.detail i) = true)
    (hk : concludes (sim.runs k) (sim.detail k) "success" = true)
    (hj : sim.release.okJson = some jr) (ha : jr.field "assets" = .arr (a :: rest))
    (hn : a.nullish = false) :
    ∃ res : Result,
      (uploadAndBuildFromTemplate opts rendered sim).outcome = .ok res
        ∧ res.assetDownloadUrl = a.field "browser_download_url"
        ∧ res.assetName = a.field "name"
        ∧ (sitesOf (uploadAndBuildFromTemplate opts rendered sim).trace).count .runsList
            = k := by
  obtain ⟨jg, pre, ho, hs, hc, _⟩ := run_success rendered k hd hk1 hk2 hp hk hj ha hn
  refine ⟨_, ho, rfl, rfl, ?_⟩
  rw [hs]
  simp only [List.count_append, hc]
  split <;> simp <;> omega

/-- C3, witness: success at the second attempt; the release has two assets and
the first one is returned. -/
theorem success_returns_first_asset_witness :
    ∃ res : Result,
      (uploadAndBuildFromTemplate (some sampleOptions) "0.4fzyo82mvyr"
          (concludingSim "success")).outcome = .ok res
        ∧ res.assetDownloadUrl = .str "https://dl/1"
        ∧ res.assetName = .str "app-debug.apk"
        ∧ (sitesOf (uploadAndBuildFromTemplate (some sampleOptions) "0.4fzyo82mvyr"
            (concludingSim "success")).trace).count .runsList = 2 :=
  success_returns_first_asset (some sampleOptions) "0.4fzyo82mvyr" (concludingSim "success") 2
    (.obj [("html_url", .str "https://github.com/octocat/tmp/releases/1"),
      ("assets", .arr [
        .obj [("name", .str "app-debug.apk"), ("browser_download_url", .str "https://dl/1")],
        .obj [("name", .str "notes.txt"), ("browser_download_url", .str "https://dl/2")]])])
    (.obj [("name", .str "app-debug.apk"), ("browser_download_url", .str "https://dl/1")])
    [.obj [("name", .str "notes.txt"), ("browser_download_url", .str "https://dl/2")]]
    (by decide) (by decide) (by decide)
    (fun i h1 h2 => by
      have hi : i = 1 := by omega
      subst hi
      decide)
    (by decide) rfl rfl rfl

/-- C4: when the options are absent, or the credential, the account, the
content blob or the filename is absent or falsy, the pipeline throws an
`Error` and has produced no event at all: no request and no progress
message. -/
theorem missing_input_fails_first (opts : Option Options) (rendered : String) (sim : Sim)
    (h : opts = none ∨ (optionsOf opts).githubToken.truthy = false
      ∨ (optionsOf opts).githubUser.truthy = false ∨ (optionsOf opts).blob.truthy = false
      ∨ (optionsOf opts).name.truthy = false) :
    (∃ msg, (uploadAndBuildFromTemplate opts rendered sim).outcome = .error (.error msg))
      ∧ (uploadAndBuildFromTemplate opts rendered sim).trace = []
      ∧ requestsOf (uploadAndBuildFromTemplate opts rendered sim).trace = []
      ∧ progressOf (uploadAndBuildFromTemplate opts rendered sim).trace = [] := by
  have h' : (optionsOf opts).githubToken.truthy = false
      ∨ (optionsOf opts).githubUser.truthy = false ∨ (optionsOf opts).blob.truthy = false
      ∨ (optionsOf opts).name.truthy = false := by
    rcases h with rfl | h
    · exact Or.inl rfl
    · exact h
  obtain ⟨⟨msg, hm⟩, ht⟩ := createRepository_missing opts rendered sim.user sim.generate h'
  have htr : (uploadAndBuildFromTemplate opts rendered sim).trace = [] := by
    rw [uploadAndBuildFromTemplate_eq, Eff.trace_bind_error hm, ht]
  refine ⟨⟨msg, ?_⟩, htr, ?_, ?_⟩
  · rw [uploadAndBuildFromTemplate_eq, Eff.outcome_bind_error hm]
  · rw [htr]; rfl
  · rw [htr]; rfl

/-- C4, witness: no options at all, and options without the content blob. -/
theorem missing_input_fails_first_witness :
    (uploadAndBuildFromTemplate none "0.4fzyo82mvyr" sampleSim).trace = []
      ∧ (uploadAndBuildFromTemplate
          (some { sampleOptions with blob := .value .undefined }) "0.4fzyo82mvyr"
          sampleSim).trace = [] :=
  ⟨(missing_input_fails_first none "0.4fzyo82mvyr" sampleSim (Or.inl rfl)).2.1,
   (missing_input_fails_first (some { sampleOptions with blob := .value .undefined })
      "0.4fzyo82mvyr" sampleSim (Or.inr (Or.inr (Or.inr (Or.inl rfl))))).2.1⟩

/-- C5, as amended: when stages 1-4 succeed and the dispatch request is
answered by the response `r`, the response counts as success exactly when its
status is 201, 202 or 204. Then the pipeline announces the polling and, with a
positive attempt budget, issues the first runs-list query; for every other
status, 200 included, it throws the error with the status and the body, and
the dispatch request is the last request. -/
theorem dispatch_status_gate (opts : Option Options) (rendered : String) (sim : Sim)
    (r : Response) (hu : uploaded opts sim = true) (hr : sim.dispatch = .responds r) :
    ((r.status = 201 ∨ r.status = 202 ∨ r.status = 204) →
        "已触发 GitHub Actions workflow，开始轮询执行状态..."
          ∈ progressOf (uploadAndBuildFromTemplate opts rendered sim).trace
        ∧ (0 < attemptBudget opts → ∃ rest,
            sitesOf (uploadAndBuildFromTemplate opts rendered sim).trace
              = [.accountLookup, .generate, .workflowInstall, .upload, .dispatch, .runsList]
                ++ rest))
      ∧ (¬(r.status = 201 ∨ r.status = 202 ∨ r.status = 204) →
        (uploadAndBuildFromTemplate opts rendered sim).outcome
            = .error (.error ("触发 workflow 失败: " ++ toString r.status ++ " " ++ r.text))
          ∧ sitesOf (uploadAndBuildFromTemplate opts rendered sim).trace
            = [.accountLookup, .generate, .workflowInstall, .upload, .dispatch]) := by
  constructor
  · intro hs
    exact run_dispatch_accepted rendered hu hr (by
      rcases hs with h | h | h <;> rw [h] <;> decide)
  · intro hs
    exact run_dispatch_refused rendered hu hr (by
      simp only [not_or] at hs
      simp [hs.1, hs.2.1, hs.2.2])

/-- C5, witness: the sample server answers the dispatch with 204. -/
theorem dispatch_status_gate_witness :
    uploaded (some sampleOptions) sampleSim = true
      ∧ "已触发 GitHub Actions workflow，开始轮询执行状态..."
          ∈ progressOf (uploadAndBuildFromTemplate (some sampleOptions) "0.4fzyo82mvyr"
              sampleSim).trace :=
  ⟨by decide,
   ((dispatch_status_gate (some sampleOptions) "0.4fzyo82mvyr" sampleSim _ (by decide) rfl).1
      (Or.inr (Or.inr rfl))).1⟩

/-- C5, counterexample: a dispatch answered by `200 OK` is fatal. Stages 1-4
succeed, the pipeline throws the dispatch error and issues no polling
request. -/
theorem dispatch_200_is_fatal :
    uploaded (some sampleOptions) { sampleSim with dispatch := Fetch.plain 200 "OK" } = true
      ∧ (uploadAndBuildFromTemplate (some sampleOptions) "0.4fzyo82mvyr"
          { sampleSim with dispatch := Fetch.plain 200 "OK" }).outcome
          = .error (.error "触发 workflow 失败: 200 OK")
      ∧ sitesOf (uploadAndBuildFromTemplate (some sampleOptions) "0.4fzyo82mvyr"
          { sampleSim with dispatch := Fetch.plain 200 "OK" }).trace
          = [.accountLookup, .generate, .workflowInstall, .upload, .dispatch] :=
  have h := @run_dispatch_refused (some sampleOptions)
    { sampleSim with dispatch := Fetch.plain 200 "OK" } _ "0.4fzyo82mvyr"
    (by decide) rfl (by decide)
  have hmsg : "触发 workflow 失败: " ++ toString (200 : Nat) ++ " " ++ "OK"
      = "触发 workflow 失败: 200 OK" := by decide
  ⟨by decide, h.1.trans (congrArg (fun m => Except.error (Thrown.error m)) hmsg), h.2⟩

/-- C6: when the inputs are present and stages 1-2 succeed, the response `r` to
the workflow install, ok or not, does not stop the pipeline: the upload
request is the next request, and the requests issued and the way the pipeline
completes are those of the run that differs only in the install response
being another response `r'`, in particular an ok one. -/
theorem install_failure_is_soft (opts : Option Options) (rendered : String) (sim : Sim)
    (r r' : Response) (hin : inputsOk opts = true) (hrepo : repositoryCreated sim = true) :
    (∃ rest, sitesOf (uploadAndBuildFromTemplate opts rendered
          { sim with install := .responds r }).trace
        = [.accountLookup, .generate, .workflowInstall, .upload] ++ rest)
      ∧ (uploadAndBuildFromTemplate opts rendered { sim with install := .responds r }).outcome
        = (uploadAndBuildFromTemplate opts rendered { sim with install := .responds r' }).outcome
      ∧ requestsOf (uploadAndBuildFromTemplate opts rendered
          { sim with install := .responds r }).trace
        = requestsOf (uploadAndBuildFromTemplate opts rendered
          { sim with install := .responds r' }).trace :=
  ⟨run_upload_follows_install rendered r hin hrepo,
   run_install_irrelevant opts rendered sim r r'⟩

/-- C6, witness: the install is answered by 422 instead of 201. -/
theorem install_failure_is_soft_witness :
    (uploadAndBuildFromTemplate (some sampleOptions) "0.4fzyo82mvyr"
        { sampleSim with
          install := .responds { ok := false, status := 422, text := "Unprocessable" } }).outcome
      = (uploadAndBuildFromTemplate (some sampleOptions) "0.4fzyo82mvyr"
        { sampleSim with install := .responds { ok := true, status := 201 } }).outcome :=
  (install_failure_is_soft (some sampleOptions) "0.4fzyo82mvyr" sampleSim
    { ok := false, status := 422, text := "Unprocessable" } { ok := true, status := 201 }
    (by decide) (by decide)).2.1

/-- C7: (i) when `autoDelete` is false, omitted or otherwise falsy, no request
of the run is a `DELETE` request, however the run completes; (ii) the way the
run completes does not depend on the answer to the delete request, and when
`autoDelete` is truthy and every earlier stage succeeds (success at attempt
`k`, a release with a first asset), the delete request is issued and the same
result is returned whether the deletion succeeds, is refused or rejects. -/
theorem cleanup_is_optional_and_soft (opts : Option Options) (rendered : String) (sim : Sim) :
    (((optionsOf opts).autoDelete.withDefault (.bool false)).truthy = false →
        ∀ r ∈ requestsOf (uploadAndBuildFromTemplate opts rendered sim).trace,
          r.method ≠ "DELETE" ∧ r.site ≠ .deleteRepo)
      ∧ (∀ d : Fetch,
          (uploadAndBuildFromTemplate opts rendered { sim with delete := d }).outcome
            = (uploadAndBuildFromTemplate opts rendered sim).outcome)
      ∧ (∀ (k : Nat) (jr a : JVal) (rest : List JVal),
          ((optionsOf opts).autoDelete.withDefault (.bool false)).truthy = true →
          dispatched opts sim = true → 1 ≤ k → k ≤ attemptBudget opts →
          (∀ i, 1 ≤ i → i < k → nonTerminal (sim.runs i) (sim.detail i) = true) →
          concludes (sim.runs k) (sim.detail k) "success" = true →
          sim.release.okJson = some jr → jr.field "assets" = .arr (a :: rest) →
          a.nullish = false →
          ∃ res : Result, ∀ d : Fetch,
            (uploadAndBuildFromTemplate opts rendered { sim with delete := d }).outcome
                = .ok res
              ∧ .deleteRepo ∈ sitesOf (uploadAndBuildFromTemplate opts rendered
                  { sim with delete := d }).trace) := by
  refine ⟨fun hfalse r hr => (run_requests opts rendered sim r hr).2 hfalse,
    run_delete_irrelevant opts rendered sim, ?_⟩
  intro k jr a rest hauto hd hk1 hk2 hp hk hj ha hn
  obtain ⟨jg, _, ho, _⟩ := run_success rendered k hd hk1 hk2 hp hk hj ha hn
  refine ⟨resultOf (ctxOf opts rendered jg) jr a, fun d => ?_⟩
  obtain ⟨jg', pre, _, hs, _⟩ := @run_success opts { sim with delete := d } rendered k jr a rest hd
    hk1 hk2 hp hk hj ha hn
  constructor
  · rw [run_delete_irrelevant, ho]
  · rw [hs, hauto]
    simp

/-- C7, witness: without `autoDelete` the successful sample run issues no
`DELETE` request; with `autoDelete` and a rejected deletion it returns the
result of the run whose deletion succeeds. -/
theorem cleanup_is_optional_and_soft_witness :
    (∀ r ∈ requestsOf (uploadAndBuildFromTemplate (some sampleOptions) "0.4fzyo82mvyr"
        (concludingSim "success")).trace, r.method ≠ "DELETE" ∧ r.site ≠ .deleteRepo)
      ∧ (uploadAndBuildFromTemplate (some { sampleOptions with autoDelete := .bool true })
          "0.4fzyo82mvyr"
          { concludingSim "success" with delete := .fails "Failed to fetch" }).outcome
        = (uploadAndBuildFromTemplate (some { sampleOptions with autoDelete := .bool true })
          "0.4fzyo82mvyr" (concludingSim "success")).outcome :=
  ⟨(cleanup_is_optional_and_soft (some sampleOptions) "0.4fzyo82mvyr"
      (concludingSim "success")).1 rfl,
   (cleanup_is_optional_and_soft (some { sampleOptions with autoDelete := .bool true })
      "0.4fzyo82mvyr" (concludingSim "success")).2.1 (.fails "Failed to fetch")⟩

/-- C8: for every byte sequence `b`, the binary string built chunk by chunk
(chunks of `0x8000` bytes) is the string that maps each byte to the character
with that code: it has the length of `b` and its character codes are the bytes
of `b` in order; `btoa` accepts it, `atob` of the result is the binary string
again and the decoded codes are the bytes of `b`. The upload stage issues
exactly one request, a `PUT` whose body has that base-64 text as its `content`
field; and in a run whose content is `b`, with the inputs present, stages 1-2
succeeding and the workflow install answered, that request is the fourth
request and the only one of the upload call site. -/
theorem chunked_binary_string (b : List Byte) :
    binaryString b = String.mk (b.map fun x => Char.ofNat x.val)
      ∧ (binaryString b).length = b.length
      ∧ (binaryString b).toList.map Char.toNat = b.map Fin.val
      ∧ ∃ content : String,
          btoa (binaryString b) = some content
            ∧ atob content = some (binaryString b)
            ∧ b64decode content.toList = some (b.map Fin.val)
            ∧ (∀ (upload : Fetch) (tok : JVal) (c : Ctx),
                ∃ req : Request,
                  requestsOf (uploadArtifact upload tok { c with blob := .blob b }).trace
                      = [req]
                    ∧ req.site = .upload ∧ req.method = "PUT"
                    ∧ req.body = some (.obj
                        [("message", .str ("Upload " ++ c.name.toStr ++ " via packager")),
                         ("content", .str content)]))
            ∧ (∀ (opts : Option Options) (rendered : String) (sim : Sim),
                (optionsOf opts).blob = .blob b → inputsOk opts = true →
                repositoryCreated sim = true → sim.install.answered = true →
                ∃ (r1 r2 r3 req : Request) (rest : List Request),
                  requestsOf (uploadAndBuildFromTemplate opts rendered sim).trace
                      = r1 :: r2 :: r3 :: req :: rest
                    ∧ r1.site = .accountLookup ∧ r2.site = .generate
                    ∧ r3.site = .workflowInstall ∧ req.site = .upload ∧ req.method = "PUT"
                    ∧ req.body = some (.obj
                        [("message",
                          .str ("Upload " ++ (optionsOf opts).name.toStr ++ " via packager")),
                         ("content", .str content)])
                    ∧ ∀ r ∈ rest, r.site ≠ .upload) := by
  have hb : ∀ x ∈ b.map Fin.val, x < 256 := by
    intro x hx
    obtain ⟨y, _, rfl⟩ := List.mem_map.1 hx
    exact y.isLt
  refine ⟨binaryString_eq_fromCharCode b, ?_, ?_,
    String.mk (b64encode (b.map Fin.val)), ?_, ?_, ?_, ?_, ?_⟩
  · rw [binaryString_eq_fromCharCode]
    simp [fromCharCode, String.length]
  · rw [binaryString_eq_fromCharCode, toList_fromCharCode]
  · rw [binaryString_eq_fromCharCode, btoa_fromCharCode]
  · rw [binaryString_eq_fromCharCode, atob_btoa_fromCharCode]
  · exact b64decode_b64encode _ hb
  · intro upload tok c
    exact ⟨_, @uploadArtifact_request { c with blob := .blob b } b upload tok rfl,
      rfl, rfl, rfl⟩
  · intro opts rendered sim hblob hin hrepo hi
    exact run_upload_request rendered hblob hin hrepo hi

/-- C8, witness: a blob of 65537 bytes, which spans three chunks, uploaded to
the sample server. -/
theorem chunked_binary_string_witness :
    (binaryString (List.replicate 65537 7)).length = 65537
      ∧ ∃ (r1 r2 r3 req : Request) (rest : List Request),
          requestsOf (uploadAndBuildFromTemplate
              (some { sampleOptions with blob := .blob (List.replicate 65537 7) })
              "0.4fzyo82mvyr" sampleSim).trace = r1 :: r2 :: r3 :: req :: rest
            ∧ req.site = .upload ∧ ∀ r ∈ rest, r.site ≠ .upload := by
  obtain ⟨_, hlen, _, content, _, _, _, _, hrun⟩ :=
    chunked_binary_string (List.replicate 65537 7)
  obtain ⟨r1, r2, r3, req, rest, hreq, _, _, _, hsite, _, _, hrest⟩ :=
    hrun (some { sampleOptions with blob := .blob (List.replicate 65537 7) })
      "0.4fzyo82mvyr" sampleSim rfl (by decide) (by decide) (by decide)
  exact ⟨hlen.trans (List.length_replicate _ _), r1, r2, r3, req, rest, hreq, hsite, hrest⟩

/-- C9, as amended: every request of a run carries the header
`Authorization: token <githubToken>` and the header
`Accept: application/vnd.github+json`; and two runs that differ only in
`githubToken`, both credentials being present (truthy), complete in the same
way (the same thrown value or the same result) and emit the same progress
messages when they receive the same responses. -/
theorem credential_attached_not_surfaced (opts : Option Options) (o : Options)
    (rendered : String) (sim : Sim) (t1 t2 : JVal)
    (h1 : t1.truthy = true) (h2 : t2.truthy = true) :
    (∀ r ∈ requestsOf (uploadAndBuildFromTemplate opts rendered sim).trace,
        ("Authorization", "token " ++ (optionsOf opts).githubToken.toStr) ∈ r.headers
          ∧ ("Accept", "application/vnd.github+json") ∈ r.headers)
      ∧ (uploadAndBuildFromTemplate (some { o with githubToken := t1 }) rendered sim).outcome
        = (uploadAndBuildFromTemplate (some { o with githubToken := t2 }) rendered sim).outcome
      ∧ progressOf (uploadAndBuildFromTemplate (some { o with githubToken := t1 }) rendered
          sim).trace
        = progressOf (uploadAndBuildFromTemplate (some { o with githubToken := t2 }) rendered
          sim).trace :=
  ⟨fun r hr => (run_requests opts rendered sim r hr).1,
   run_token_free o rendered sim t1 t2 h1 h2⟩

/-- C9, witness: two different credentials against the sample server. -/
theorem credential_attached_not_surfaced_witness :
    (uploadAndBuildFromTemplate (some { sampleOptions with githubToken := .str "ghp_secret" })
        "0.4fzyo82mvyr" sampleSim).outcome
      = (uploadAndBuildFromTemplate (some { sampleOptions with githubToken := .str "ghp_other" })
        "0.4fzyo82mvyr" sampleSim).outcome :=
  (credential_attached_not_surfaced (some sampleOptions) sampleOptions "0.4fzyo82mvyr" sampleSim
    (.str "ghp_secret") (.str "ghp_other") rfl rfl).2.1

/-- C9, counterexample: two runs that differ only in `githubToken`, the empty
string in one and a token in the other, against the same server: the first
throws `Missing GitHub username or token` without a progress message, the
second reports progress and throws what the rejected account lookup gives. -/
theorem credential_presence_is_surfaced :
    (uploadAndBuildFromTemplate (some { sampleOptions with githubToken := .str "" })
        "0.4fzyo82mvyr" offlineSim).outcome
        = .error (.error "Missing GitHub username or token")
      ∧ (uploadAndBuildFromTemplate (some { sampleOptions with githubToken := .str "ghp_secret" })
        "0.4fzyo82mvyr" offlineSim).outcome
        = .error (.rejected "Failed to fetch")
      ∧ progressOf (uploadAndBuildFromTemplate
          (some { sampleOptions with githubToken := .str "" }) "0.4fzyo82mvyr" offlineSim).trace
        = []
      ∧ progressOf (uploadAndBuildFromTemplate
          (some { sampleOptions with githubToken := .str "ghp_secret" }) "0.4fzyo82mvyr"
          offlineSim).trace
        = ["正在检查用户类型..."]
      ∧ (uploadAndBuildFromTemplate (some { sampleOptions with githubToken := .str "" })
          "0.4fzyo82mvyr" offlineSim).outcome
        ≠ (uploadAndBuildFromTemplate
          (some { sampleOptions with githubToken := .str "ghp_secret" })
          "0.4fzyo82mvyr" offlineSim).outcome := by
  have ha : (uploadAndBuildFromTemplate (some { sampleOptions with githubToken := .str "" })
      "0.4fzyo82mvyr" offlineSim).outcome
      = .error (.error "Missing GitHub username or token") := by rfl
  have hb : (uploadAndBuildFromTemplate
      (some { sampleOptions with githubToken := .str "ghp_secret" })
      "0.4fzyo82mvyr" offlineSim).outcome = .error (.rejected "Failed to fetch") := by rfl
  refine ⟨ha, hb, by rfl, by rfl, ?_⟩
  rw [ha, hb]
  intro h
  cases h

/-- C10, as amended: the name of the temporary repository is the prefix
`packager-temp-` followed by the characters 2 to 7 of the base-36 rendering of
the random number: at most 6 characters, exactly 6 when the rendering has at
least 8 characters, each of them from `0-9a-z` when the fraction digits of the
rendering are. -/
theorem repo_name_suffix (rendered : String)
    (h : ∀ c ∈ rendered.toList.drop 2, isBase36 c = true) :
    repoNameOf rendered = "packager-temp-" ++ randSuffix rendered
      ∧ (randSuffix rendered).length = min 6 (rendered.length - 2)
      ∧ (randSuffix rendered).length ≤ 6
      ∧ (8 ≤ rendered.length → (randSuffix rendered).length = 6)
      ∧ ∀ c ∈ (randSuffix rendered).toList, isBase36 c = true := by
  obtain ⟨l⟩ := rendered
  have hl : (randSuffix ⟨l⟩).length = min 6 (l.length - 2) := by
    simp [randSuffix, slice, String.length]
  refine ⟨rfl, hl, ?_, ?_, ?_⟩
  · rw [hl]; omega
  · intro h8
    rw [hl]
    have : 8 ≤ l.length := h8
    omega
  · intro c hc
    exact h c (List.mem_of_mem_take hc)

/-- C10, witness: a rendering with eleven fraction digits. -/
theorem repo_name_suffix_witness :
    repoNameOf "0.4fzyo82mvyr" = "packager-temp-" ++ randSuffix "0.4fzyo82mvyr"
      ∧ (randSuffix "0.4fzyo82mvyr").length = 6 :=
  have h := repo_name_suffix "0.4fzyo82mvyr" (by decide)
  ⟨h.1, h.2.2.2.1 (by decide)⟩

/-- C10, counterexample: the random number 0.5 is rendered `0.i` in base 36
(0.5 = 18/36 and `i` is the digit 18), so the suffix is the single character
`i` and the name is `packager-temp-i`; the number 0 is rendered `0` and its
suffix is empty. -/
theorem repo_name_suffix_short :
    randSuffix "0.i" = "i" ∧ repoNameOf "0.i" = "packager-temp-i"
      ∧ (randSuffix "0.i").length = 1 ∧ (randSuffix "0.i").length ≠ 6
      ∧ repoNameOf "0" = "packager-temp-" := by
  decide

end Packager
